import Mathlib

/-!
Shallow embedding of `vpMbtPolygon.cpp` (ViSP model-based-tracker polygon:
visibility test and view-frustum clipping) and proofs of the specification
claims about it.  Doubles are modelled as real numbers; C++ exceptions as
`Except`; the corner array as a `List` whose length is the `nbpt` field.
-/

set_option maxHeartbeats 1000000

open scoped Classical

noncomputable section

namespace Visp

/-- A 3-component vector (stands for both `vpColVector` of size 3 and
`vpRowVector` of size 3 in the source; the two only differ by transposition,
which is irrelevant to the dot products computed here). -/
structure vpColVector3 where
  vx : ℝ
  vy : ℝ
  vz : ℝ

instance : Inhabited vpColVector3 := ⟨⟨0, 0, 0⟩⟩

/-- Euclidean dot product (`vpColVector::dotProd`, and `vpRowVector * vpColVector`). -/
def dotProd (a b : vpColVector3) : ℝ := a.vx * b.vx + a.vy * b.vy + a.vz * b.vz

/-- Cross product (`vpColVector::crossProd`). -/
def crossProd (a b : vpColVector3) : vpColVector3 :=
  ⟨a.vy * b.vz - a.vz * b.vy, a.vz * b.vx - a.vx * b.vz, a.vx * b.vy - a.vy * b.vx⟩

/-- `normalize()` of a 3-vector: divide each component by the Euclidean norm
(`sqrt` of the sum of squares), as `vpColVector::normalize` /
`vpRowVector::normalize` do. -/
def normalize3 (v : vpColVector3) : vpColVector3 :=
  let n := Real.sqrt (v.vx * v.vx + v.vy * v.vy + v.vz * v.vz)
  ⟨v.vx / n, v.vy / n, v.vz / n⟩

/-- `vpPoint`: object-frame coordinates `(oX,oY,oZ)`, camera-frame coordinates
`(X,Y,Z)` and the normalized image-plane projection `(x,y)`.  A default
constructed `vpPoint` has all of these equal to `0`. -/
structure vpPoint where
  oX : ℝ
  oY : ℝ
  oZ : ℝ
  X : ℝ
  Y : ℝ
  Z : ℝ
  x : ℝ
  y : ℝ

instance : Inhabited vpPoint := ⟨⟨0, 0, 0, 0, 0, 0, 0, 0⟩⟩

/-- `vpPoint::projection()`: perspective projection of the camera-frame
coordinates onto the normalized image plane (`x = X/Z`, `y = Y/Z`). -/
def vpPoint.projection (pt : vpPoint) : vpPoint :=
  { pt with x := pt.X / pt.Z, y := pt.Y / pt.Z }

/-- `vpHomogeneousMatrix`: a rigid transform, as a rotation block and a
translation vector. -/
structure vpHomogeneousMatrix where
  r11 : ℝ
  r12 : ℝ
  r13 : ℝ
  r21 : ℝ
  r22 : ℝ
  r23 : ℝ
  r31 : ℝ
  r32 : ℝ
  r33 : ℝ
  t1 : ℝ
  t2 : ℝ
  t3 : ℝ

/-- The identity pose. -/
def idPose : vpHomogeneousMatrix := ⟨1, 0, 0, 0, 1, 0, 0, 0, 1, 0, 0, 0⟩

/-- `vpPoint::changeFrame(cMo)`: recompute the camera-frame coordinates from
the object-frame coordinates through the pose. -/
def vpPoint.changeFrame (pt : vpPoint) (m : vpHomogeneousMatrix) : vpPoint :=
  { pt with
    X := m.r11 * pt.oX + m.r12 * pt.oY + m.r13 * pt.oZ + m.t1,
    Y := m.r21 * pt.oX + m.r22 * pt.oY + m.r23 * pt.oZ + m.t2,
    Z := m.r31 * pt.oX + m.r32 * pt.oY + m.r33 * pt.oZ + m.t3 }

/-- `vpCameraParameters`, reduced to what the clipping core consumes: whether
the four field-of-view plane normals have been precomputed, and those
normals (order: LEFT, RIGHT, UP, DOWN). -/
structure vpCameraParameters where
  isFovComputed : Bool
  fovNormals : List vpColVector3

/-- `vpException`; the polygon only ever throws `dimensionError`. -/
inductive vpException where
  | dimensionError : String → vpException
deriving DecidableEq

/-- `vpImagePoint`: a 2D pixel coordinate (`i` = row, `j` = column). -/
structure vpImagePoint where
  i : ℝ
  j : ℝ

/-- `vpMbtPolygon`: the polygon entity of the model-based tracker.  The raw
array `p` of length `nbpt` is modelled as a list; `roiPointsClip` is the
clipped boundary with per-vertex origin flags. -/
structure vpMbtPolygon where
  index : ℤ
  nbpt : ℕ
  nbCornersInsidePrev : ℕ
  isvisible : Bool
  isappearing : Bool
  p : List vpPoint
  roiPointsClip : List (vpPoint × ℕ)
  clippingFlag : ℕ
  distNearClip : ℝ
  distFarClip : ℝ

namespace vpMbtPolygon

/-- Clip-plane flag `NONE = 0` (enumeration `vpMbtPolygonClippingType`; the
values live in the header `vpMbtPolygon.h`, which is not part of the sources;
they are fixed by the spec's wire format §6 and by the literal case values
`1,2,4,8,16,32` used in `computeRoiClipped`). -/
def NO_CLIPPING : ℕ := 0

/-- Clip-plane flag `NEAR = 1`. -/
def NEAR_CLIPPING : ℕ := 1

/-- Clip-plane flag `FAR = 2`. -/
def FAR_CLIPPING : ℕ := 2

/-- Clip-plane flag `LEFT = 4`. -/
def LEFT_CLIPPING : ℕ := 4

/-- Clip-plane flag `RIGHT = 8`. -/
def RIGHT_CLIPPING : ℕ := 8

/-- Clip-plane flag `UP = 16`. -/
def UP_CLIPPING : ℕ := 16

/-- Clip-plane flag `DOWN = 32`. -/
def DOWN_CLIPPING : ℕ := 32

/-- The basic constructor `vpMbtPolygon()`: index `-1`, no corners, not
visible, no clipping, near distance `0.001`, far distance `100`. -/
def init : vpMbtPolygon :=
  { index := -1, nbpt := 0, nbCornersInsidePrev := 0, isvisible := false,
    isappearing := false, p := [], roiPointsClip := [],
    clippingFlag := NO_CLIPPING, distNearClip := (0.001 : ℝ),
    distFarClip := (100 : ℝ) }

/-- `vpMbtPolygon::operator=`: copies `index`, `nbpt`, `nbCornersInsidePrev`,
`isvisible`, `isappearing`, `roiPointsClip`, `clippingFlag`, then assigns
`distNearClip = mbtp.distFarClip` (the source copies the far distance into
the near field and never assigns `distFarClip` at all, which therefore keeps
the destination's previous value), and finally reallocates and copies the
corner array of length `nbpt`. -/
def assign (self mbtp : vpMbtPolygon) : vpMbtPolygon :=
  { self with
    index := mbtp.index,
    nbpt := mbtp.nbpt,
    nbCornersInsidePrev := mbtp.nbCornersInsidePrev,
    isvisible := mbtp.isvisible,
    isappearing := mbtp.isappearing,
    roiPointsClip := mbtp.roiPointsClip,
    clippingFlag := mbtp.clippingFlag,
    distNearClip := mbtp.distFarClip,
    p := (List.range mbtp.nbpt).map (fun i => mbtp.p.getD i default) }

/-- `vpMbtPolygon::getPoint(_index)`: throws
`vpException(dimensionError, "index out of range")` when `_index >= nbpt`,
otherwise returns the stored corner. -/
def getPoint (poly : vpMbtPolygon) (idx : ℕ) : Except vpException vpPoint :=
  if poly.nbpt ≤ idx then
    Except.error (vpException.dimensionError "index out of range")
  else
    Except.ok (poly.p.getD idx default)

/-- `vpMbtPolygon::setNbPoint(nb)`: sets `nbpt` and replaces the corner array
with `nb` default-constructed points. -/
def setNbPoint (poly : vpMbtPolygon) (nb : ℕ) : vpMbtPolygon :=
  { poly with nbpt := nb, p := List.replicate nb default }

/-- `vpMbtPolygon::addPoint(n, P)`: stores `P` at index `n`.  The bounds
check in the source is commented out (`//if( p!NULL && n < nbpt )`), so the
function performs the write unchecked and never throws; an out-of-range
write has no well-defined effect on the modelled storage (`List.set` leaves
the list unchanged there). -/
def addPoint (poly : vpMbtPolygon) (n : ℕ) (P : vpPoint) : vpMbtPolygon :=
  { poly with p := poly.p.set n P }

/-- `vpMbtPolygon::changeFrame(cMo)`: transforms every corner into the camera
frame and recomputes its projection. -/
def changeFrame (poly : vpMbtPolygon) (cMo : vpHomogeneousMatrix) : vpMbtPolygon :=
  { poly with p := poly.p.map (fun q => (q.changeFrame cMo).projection) }

/-- `vpMbtPolygon::setClipping(flags)`.  Modelled from the spec: the header
holding this accessor is not under the sources; per spec §3 `clipMask` is a
caller-configured field, so the setter stores the flags. -/
def setClipping (poly : vpMbtPolygon) (flags : ℕ) : vpMbtPolygon :=
  { poly with clippingFlag := flags }

/-- `vpMbtPolygon::setNearClippingDistance(dist)`.  Modelled from the spec:
the header holding this accessor is not under the sources; per spec §3
`nearDistance` is a caller-configured field, so the setter stores it. -/
def setNearClippingDistance (poly : vpMbtPolygon) (dist : ℝ) : vpMbtPolygon :=
  { poly with distNearClip := dist }

/-- `vpMbtPolygon::setFarClippingDistance(dist)`.  Modelled from the spec:
the header holding this accessor is not under the sources; per spec §3
`farDistance` is a caller-configured field, so the setter stores it. -/
def setFarClippingDistance (poly : vpMbtPolygon) (dist : ℝ) : vpMbtPolygon :=
  { poly with distFarClip := dist }

end vpMbtPolygon

/-- The angle computed by `getClippedPointsFovGeneric` for one endpoint: the
endpoint's camera-frame coordinate vector is normalized and the arc cosine of
its dot product with the plane normal is taken (`acos(p1Vec * normal)`). -/
def fovAngle (q : vpPoint) (normal : vpColVector3) : ℝ :=
  Real.arccos (dotProd (normalize3 ⟨q.X, q.Y, q.Z⟩) normal)

/-- The plane-crossing point computed by `getClippedPointsFovGeneric` for a
straddling edge: parameter `t` from the implicit plane equation along the
segment, then linear interpolation of `X`, `Y`, `Z`; the other fields are
those of a default-constructed `vpPoint`. -/
def fovClipPoint (p1 p2 : vpPoint) (normal : vpColVector3) : vpPoint :=
  let t0 := -(normal.vx * p1.X + normal.vy * p1.Y + normal.vz * p1.Z)
  let t := t0 /
    (normal.vx * (p2.X - p1.X) + normal.vy * (p2.Y - p1.Y) + normal.vz * (p2.Z - p1.Z))
  { oX := 0, oY := 0, oZ := 0,
    X := (p2.X - p1.X) * t + p1.X,
    Y := (p2.Y - p1.Y) * t + p1.Y,
    Z := (p2.Z - p1.Z) * t + p1.Z,
    x := 0, y := 0 }

/-- `vpMbtPolygon::getClippedPointsFovGeneric`: clips one edge against one
field-of-view plane.  In the source the clipped points and infos are in-out
reference parameters aliased with the inputs; here the function returns
`(kept?, p1Clipped, p2Clipped, p1ClippedInfo, p2ClippedInfo)`, where `kept?`
is the C++ return value (`false` means the edge is discarded).  Everything is
wrapped in the member test `(clippingFlag & flag) == flag`; the live polarity
drops the edge when both angles are below `π/2` and keeps it unchanged when
neither is; a straddling edge gets the crossing point in place of the
endpoint whose angle is below `π/2`, tagged with `flag`. -/
def vpMbtPolygon.getClippedPointsFovGeneric (clippingFlag : ℕ) (p1 p2 : vpPoint)
    (p1Info p2Info : ℕ) (normal : vpColVector3) (flag : ℕ) :
    Bool × vpPoint × vpPoint × ℕ × ℕ :=
  if (clippingFlag &&& flag) = flag then
    if fovAngle p1 normal < Real.pi / 2 ∧ fovAngle p2 normal < Real.pi / 2 then
      (false, p1, p2, p1Info, p2Info)
    else if fovAngle p1 normal < Real.pi / 2 ∨ fovAngle p2 normal < Real.pi / 2 then
      if fovAngle p1 normal < Real.pi / 2 then
        (true, fovClipPoint p1 p2 normal, p2, p1Info ||| flag, p2Info)
      else
        (true, p1, fovClipPoint p1 p2 normal, p1Info, p2Info ||| flag)
    else (true, p1, p2, p1Info, p2Info)
  else (true, p1, p2, p1Info, p2Info)

/-- The interpolated point computed by `getClippedPointsDistance` for a
straddling edge: `t = (distance - Z1)/(Z2 - Z1)`, linear interpolation of
`X` and `Y`, and `Z` set exactly to `distance`; the other fields are those
of a default-constructed `vpPoint`. -/
def distClipPoint (p1 p2 : vpPoint) (distance : ℝ) : vpPoint :=
  let t := (distance - p1.Z) / (p2.Z - p1.Z)
  { oX := 0, oY := 0, oZ := 0,
    X := (p2.X - p1.X) * t + p1.X,
    Y := (p2.Y - p1.Y) * t + p1.Y,
    Z := distance,
    x := 0, y := 0 }

/-- `vpMbtPolygon::getClippedPointsDistance`: clips one edge against the NEAR
or FAR distance plane.  Returns `(kept?, p1Clipped, p2Clipped, p1ClippedInfo,
p2ClippedInfo)` as for the FOV variant.  For NEAR an endpoint is discarded
when `Z < distance`, for FAR when `Z > distance`; both-discarded edges
return `false`, straddling edges replace the discarded endpoint with the
interpolated point tagged `FAR_CLIPPING` or `NEAR_CLIPPING` according to
`flag`. -/
def vpMbtPolygon.getClippedPointsDistance (p1 p2 : vpPoint) (p1Info p2Info : ℕ)
    (flag : ℕ) (distance : ℝ) : Bool × vpPoint × vpPoint × ℕ × ℕ :=
  let test1 : Prop :=
    if flag = vpMbtPolygon.FAR_CLIPPING then p1.Z > distance ∧ p2.Z > distance
    else p1.Z < distance ∧ p2.Z < distance
  let test2 : Prop :=
    if flag = vpMbtPolygon.FAR_CLIPPING then p1.Z > distance ∨ p2.Z > distance
    else p1.Z < distance ∨ p2.Z < distance
  let test3 : Prop :=
    if flag = vpMbtPolygon.FAR_CLIPPING then p1.Z > distance else p1.Z < distance
  if test1 then (false, p1, p2, p1Info, p2Info)
  else if test2 then
    if test3 then
      (true, distClipPoint p1 p2 distance, p2,
        (if flag = vpMbtPolygon.FAR_CLIPPING then p1Info ||| vpMbtPolygon.FAR_CLIPPING
         else p1Info ||| vpMbtPolygon.NEAR_CLIPPING), p2Info)
    else
      (true, p1, distClipPoint p1 p2 distance, p1Info,
        (if flag = vpMbtPolygon.FAR_CLIPPING then p2Info ||| vpMbtPolygon.FAR_CLIPPING
         else p2Info ||| vpMbtPolygon.NEAR_CLIPPING))
  else (true, p1, p2, p1Info, p2Info)

namespace vpMbtPolygon

/-- The `switch(i)` of `computeRoiClipped`: dispatch one edge to the clip
routine of plane bit `i` (`1`/`2` go to the distance planes with the near/far
distance, `4`/`8`/`16`/`32` to the FOV planes with normals `0..3`).  For any
other `i` the local `problem` stays `true`, i.e. the edge is discarded. -/
def planeClipEdge (clippingFlag : ℕ) (fovNormals : List vpColVector3)
    (distNearClip distFarClip : ℝ) (i : ℕ) (p1 p2 : vpPoint) (p1Info p2Info : ℕ) :
    Bool × vpPoint × vpPoint × ℕ × ℕ :=
  if i = 1 then getClippedPointsDistance p1 p2 p1Info p2Info i distNearClip
  else if i = 2 then getClippedPointsDistance p1 p2 p1Info p2Info i distFarClip
  else if i = 4 then
    getClippedPointsFovGeneric clippingFlag p1 p2 p1Info p2Info
      (fovNormals.getD 0 default) LEFT_CLIPPING
  else if i = 8 then
    getClippedPointsFovGeneric clippingFlag p1 p2 p1Info p2Info
      (fovNormals.getD 1 default) RIGHT_CLIPPING
  else if i = 16 then
    getClippedPointsFovGeneric clippingFlag p1 p2 p1Info p2Info
      (fovNormals.getD 2 default) UP_CLIPPING
  else if i = 32 then
    getClippedPointsFovGeneric clippingFlag p1 p2 p1Info p2Info
      (fovNormals.getD 3 default) DOWN_CLIPPING
  else (false, p1, p2, p1Info, p2Info)

/-- One iteration of the edge loop of `computeRoiClipped` at index `j`:
reads the edge `(L[j], L[(j+1) % |L|])`, clips it against plane `i`, and
returns the entries pushed onto the output list for this iteration together
with the `break` decision.  A kept edge pushes the (re-projected) first
point, pushes the second point when its info was changed by the clip, and —
only for 2-point polygons — pushes the second point also when its info was
unchanged and then breaks out of the loop. -/
def clipStep (clippingFlag nbpt : ℕ) (fovNormals : List vpColVector3)
    (distNearClip distFarClip : ℝ) (i : ℕ) (L : List (vpPoint × ℕ)) (j : ℕ) :
    Bool × List (vpPoint × ℕ) :=
  let p1Clipped := (L.getD j default).1
  let p1ClippedInfo := (L.getD j default).2
  let p2ClippedInfoBefore := (L.getD ((j + 1) % L.length) default).2
  let r := planeClipEdge clippingFlag fovNormals distNearClip distFarClip i
    p1Clipped (L.getD ((j + 1) % L.length) default).1 p1ClippedInfo p2ClippedInfoBefore
  if r.1 = true then
    let out1 := [(r.2.1.projection, r.2.2.2.1)]
    let out2 := if r.2.2.2.2 ≠ p2ClippedInfoBefore then
        out1 ++ [(r.2.2.1.projection, r.2.2.2.2)]
      else out1
    if nbpt = 2 then
      (true,
        if r.2.2.2.2 = p2ClippedInfoBefore then out2 ++ [(r.2.2.1.projection, r.2.2.2.2)]
        else out2)
    else (false, out2)
  else (false, [])

/-- The edge loop of `computeRoiClipped` for one plane, written with an
explicit iteration budget `k` (the number of iterations still to run) and
the current index `j`; `acc` is the output list built so far
(`roiPointsClipTemp2`). -/
def clipPlaneGo (clippingFlag nbpt : ℕ) (fovNormals : List vpColVector3)
    (distNearClip distFarClip : ℝ) (i : ℕ) (L : List (vpPoint × ℕ)) :
    ℕ → ℕ → List (vpPoint × ℕ) → List (vpPoint × ℕ)
  | 0, _, acc => acc
  | k + 1, j, acc =>
    let s := clipStep clippingFlag nbpt fovNormals distNearClip distFarClip i L j
    if s.1 = true then acc ++ s.2
    else clipPlaneGo clippingFlag nbpt fovNormals distNearClip distFarClip i L
      k (j + 1) (acc ++ s.2)

/-- One full pass of the working list through one clip plane: iterate the
edge loop over all `|L|` edges (subject to the 2-point early break). -/
def clipPlane (clippingFlag nbpt : ℕ) (fovNormals : List vpColVector3)
    (distNearClip distFarClip : ℝ) (i : ℕ) (L : List (vpPoint × ℕ)) :
    List (vpPoint × ℕ) :=
  clipPlaneGo clippingFlag nbpt fovNormals distNearClip distFarClip i L L.length 0 []

/-- The FOV normals fetched at the start of `computeRoiClipped`: the camera's
precomputed normals when they exist and `clippingFlag > 3`, the empty list
otherwise. -/
def fovNormalsOf (cam : vpCameraParameters) (clippingFlag : ℕ) : List vpColVector3 :=
  if cam.isFovComputed = true ∧ clippingFlag > 3 then cam.fovNormals else []

/-- The initial working list of `computeRoiClipped`: each corner paired with
origin flags `NO_CLIPPING`, in order. -/
def initialRoiList (poly : vpMbtPolygon) : List (vpPoint × ℕ) :=
  (List.range poly.nbpt).map (fun i => (poly.p.getD (i % poly.nbpt) default, NO_CLIPPING))

/-- `vpMbtPolygon::computeRoiClipped(cam)`: Sutherland–Hodgman-style clipping
of the (already camera-frame) corners.  When `clippingFlag` is
`NO_CLIPPING` the working list is the result unchanged; otherwise the six
plane bits are visited in the order `1,2,4,8,16,32`, a bit participating
when set in `clippingFlag` or — for bit `1` — when `clippingFlag >
FAR_CLIPPING`; each participating plane rewrites the working list through
one `clipPlane` pass.  The final list is stored in `roiPointsClip`. -/
def computeRoiClipped (poly : vpMbtPolygon) (cam : vpCameraParameters) : vpMbtPolygon :=
  let fovNormals := fovNormalsOf cam poly.clippingFlag
  let L0 := initialRoiList poly
  let Lf :=
    if poly.clippingFlag ≠ NO_CLIPPING then
      ([1, 2, 4, 8, 16, 32] : List ℕ).foldl
        (fun L i =>
          if (poly.clippingFlag &&& i) = i ∨ (poly.clippingFlag > FAR_CLIPPING ∧ i = 1) then
            clipPlane poly.clippingFlag poly.nbpt fovNormals
              poly.distNearClip poly.distFarClip i L
          else L) L0
    else L0
  { poly with roiPointsClip := Lf }

/-- `vpMbtPolygon::getRoiClipped(points)`: the 3D points of the clipped
boundary, origin flags discarded. -/
def getRoiClipped (poly : vpMbtPolygon) : List vpPoint :=
  poly.roiPointsClip.map (fun e => e.1)

/-- Static `vpMbtPolygon::getClippedPolygon(ptIn, ptOut, cMo, clippingFlags,
cam, znear, zfar)`: builds a transient polygon (`setNbPoint`,
`setClipping`, then `setNearClippingDistance` only when the NEAR bit is in
the flags and `setFarClippingDistance` only when the FAR bit is, then
`addPoint` for every input point), runs `changeFrame` and
`computeRoiClipped`, and returns the clipped 3D points. -/
def getClippedPolygon (ptIn : List vpPoint) (cMo : vpHomogeneousMatrix)
    (clippingFlags : ℕ) (cam : vpCameraParameters) (znear zfar : ℝ) : List vpPoint :=
  let poly := vpMbtPolygon.init
  let poly := poly.setNbPoint ptIn.length
  let poly := poly.setClipping clippingFlags
  let poly :=
    if (clippingFlags &&& NEAR_CLIPPING) = NEAR_CLIPPING then
      poly.setNearClippingDistance znear
    else poly
  let poly :=
    if (clippingFlags &&& FAR_CLIPPING) = FAR_CLIPPING then
      poly.setFarClippingDistance zfar
    else poly
  let poly := (List.range ptIn.length).foldl
    (fun q i => q.addPoint i (ptIn.getD i default)) poly
  let poly := poly.changeFrame cMo
  let poly := poly.computeRoiClipped cam
  poly.getRoiClipped

end vpMbtPolygon

/-- `vpMath::rad(deg)`: degrees to radians. -/
def vpMathRad (deg : ℝ) : ℝ := deg * Real.pi / 180

namespace vpMbtPolygon

/-- The angle computed by `isVisible` for an `nbpt >= 3` polygon whose
corners are already in the camera frame: normalize the first two edge
vectors, normalize their cross product to get the face normal, take the
normalized direction from the corner centroid to the camera origin, and
return the arc cosine of the dot product of the two. -/
def faceAngle (poly : vpMbtPolygon) : ℝ :=
  let q0 := poly.p.getD 0 default
  let q1 := poly.p.getD 1 default
  let q2 := poly.p.getD 2 default
  let e1 := normalize3 ⟨q1.X - q0.X, q1.Y - q0.Y, q1.Z - q0.Z⟩
  let e2 := normalize3 ⟨q2.X - q1.X, q2.Y - q1.Y, q2.Z - q1.Z⟩
  let facenormal := normalize3 (crossProd e1 e2)
  let sX := (List.range poly.nbpt).foldl (fun s i => s + (poly.p.getD i default).X) 0
  let sY := (List.range poly.nbpt).foldl (fun s i => s + (poly.p.getD i default).Y) 0
  let sZ := (List.range poly.nbpt).foldl (fun s i => s + (poly.p.getD i default).Z) 0
  let e4 := normalize3 ⟨-sX / (poly.nbpt : ℝ), -sY / (poly.nbpt : ℝ), -sZ / (poly.nbpt : ℝ)⟩
  Real.arccos (dotProd e4 facenormal)

/-- `vpMbtPolygon::isVisible(cMo, alpha, modulo)`: for `nbpt <= 2` the
polygon is always visible (and never appearing) and the corners are left
untouched; otherwise the corners are transformed by `cMo`, the face angle is
computed, and the visible/appearing flags are set from the comparisons of
the angle with `alpha` (resp. `alpha + 1°` for the hysteresis band), the
`modulo` variant also accepting `π - angle` on the other side.  Returns the
C++ boolean result together with the polygon's updated state. -/
def isVisible (poly : vpMbtPolygon) (cMo : vpHomogeneousMatrix) (alpha : ℝ)
    (modulo : Bool) : Bool × vpMbtPolygon :=
  if poly.nbpt ≤ 2 then
    (true, { poly with isvisible := true, isappearing := false })
  else
    let poly2 := poly.changeFrame cMo
    if faceAngle poly2 < alpha then
      (true, { poly2 with isvisible := true, isappearing := false })
    else if modulo = true ∧ Real.pi - faceAngle poly2 < alpha then
      (true, { poly2 with isvisible := true, isappearing := false })
    else
      let app : Bool :=
        if faceAngle poly2 < alpha + vpMathRad 1 then true
        else if modulo = true ∧ Real.pi - faceAngle poly2 < alpha + vpMathRad 1 then true
        else false
      (false, { poly2 with isvisible := false, isappearing := app })

/-- One iteration of the scan in `getMinMaxRoi`, updating the running
`(i_min_d, i_max_d, j_min_d, j_max_d)` state with one image point: the
minimum is first lowered to the coordinate, then overwritten with the
sentinel `1` when the coordinate is negative; the maximum is raised only
from strictly positive coordinates. -/
def minMaxStep (s : ℝ × ℝ × ℝ × ℝ) (pt : vpImagePoint) : ℝ × ℝ × ℝ × ℝ :=
  let iMin0 := if s.1 > pt.i then pt.i else s.1
  let iMin := if pt.i < 0 then 1 else iMin0
  let iMax := if pt.i > 0 ∧ s.2.1 < pt.i then pt.i else s.2.1
  let jMin0 := if s.2.2.1 > pt.j then pt.j else s.2.2.1
  let jMin := if pt.j < 0 then 1 else jMin0
  let jMax := if pt.j > 0 ∧ s.2.2.2 < pt.j then pt.j else s.2.2.2
  (iMin, iMax, jMin, jMax)

/-- The real-valued state of `getMinMaxRoi` after the scan, starting from
`(INT_MAX, 0, INT_MAX, 0)`. -/
def getMinMaxState (iroi : List vpImagePoint) : ℝ × ℝ × ℝ × ℝ :=
  iroi.foldl minMaxStep ((2147483647 : ℝ), 0, 2147483647, 0)

/-- `static_cast<int>` of a double: truncation toward zero. -/
def truncInt (r : ℝ) : ℤ := if 0 ≤ r then Int.floor r else -Int.floor (-r)

/-- `vpMbtPolygon::getMinMaxRoi(iroi, i_min, i_max, j_min, j_max)`: the
bounding box of a list of image points, returned as
`(i_min, i_max, j_min, j_max)` after the int casts. -/
def getMinMaxRoi (iroi : List vpImagePoint) : ℤ × ℤ × ℤ × ℤ :=
  let s := getMinMaxState iroi
  (truncInt s.1, truncInt s.2.1, truncInt s.2.2.1, truncInt s.2.2.2)

end vpMbtPolygon

/-- Claim C8's reading of `getClippedPolygon`, written from the spec's words:
"constructs a transient Polygon internally from an arbitrary point set and
mask" with "those near/far clip distances" (unconditionally), "runs
`transform` then `computeClippedBoundary`, and returns only the 3D points
(flags discarded)".  To be compared with the source's
`vpMbtPolygon.getClippedPolygon`. -/
def getClippedPolygonSpec (ptIn : List vpPoint) (cMo : vpHomogeneousMatrix)
    (clippingFlags : ℕ) (cam : vpCameraParameters) (znear zfar : ℝ) : List vpPoint :=
  let poly : vpMbtPolygon :=
    { vpMbtPolygon.init with
      nbpt := ptIn.length, p := ptIn, clippingFlag := clippingFlags,
      distNearClip := znear, distFarClip := zfar }
  ((poly.changeFrame cMo).computeRoiClipped cam).getRoiClipped

/-- The amended reading of `getClippedPolygon`: same as the spec's words,
except that the supplied near distance is used only when the NEAR bit is in
the mask (the constructor default `0.001` otherwise) and the supplied far
distance only when the FAR bit is (the default `100` otherwise). -/
def getClippedPolygonCond (ptIn : List vpPoint) (cMo : vpHomogeneousMatrix)
    (clippingFlags : ℕ) (cam : vpCameraParameters) (znear zfar : ℝ) : List vpPoint :=
  let poly : vpMbtPolygon :=
    { vpMbtPolygon.init with
      nbpt := ptIn.length, p := ptIn, clippingFlag := clippingFlags,
      distNearClip :=
        if (clippingFlags &&& vpMbtPolygon.NEAR_CLIPPING) = vpMbtPolygon.NEAR_CLIPPING
        then znear else (0.001 : ℝ),
      distFarClip :=
        if (clippingFlags &&& vpMbtPolygon.FAR_CLIPPING) = vpMbtPolygon.FAR_CLIPPING
        then zfar else (100 : ℝ) }
  ((poly.changeFrame cMo).computeRoiClipped cam).getRoiClipped

/-! Concrete inputs used by the counterexamples and witnesses below. -/

/-- A camera-frame point on the optical axis at depth 1 (already projected). -/
def ptZ1 : vpPoint := ⟨0, 0, 0, 0, 0, 1, 0, 0⟩

/-- A camera-frame point `(1,0,1)` (already projected: `x = 1`). -/
def ptX1Z1 : vpPoint := ⟨0, 0, 0, 1, 0, 1, 1, 0⟩

/-- The FOV normal `(0,0,1)` used by the C1 polarity counterexample: both
`ptZ1` and `ptX1Z1` make an angle below `π/2` with it. -/
def nZ : vpColVector3 := ⟨0, 0, 1⟩

/-- Source polygon for the copy-assignment defect: near `1/4`, far `7`. -/
def c2src : vpMbtPolygon :=
  { vpMbtPolygon.init with distNearClip := (1 / 4 : ℝ), distFarClip := (7 : ℝ) }

/-- A 1-corner polygon used for the out-of-range access claims. -/
def c3poly : vpMbtPolygon := { vpMbtPolygon.init with nbpt := 1, p := [default] }

/-- C6 input: the outside endpoint, camera `Z = 0.0005`. -/
def c6q1 : vpPoint := ⟨0, 0, 0, 0, 0, (0.0005 : ℝ), 0, 0⟩

/-- C6 input: the inside endpoint, camera `Z = 0.01` (already projected). -/
def c6q2 : vpPoint := ⟨0, 0, 0, 0, 0, (0.01 : ℝ), 0, 0⟩

/-- C6 input: a degenerate 2-corner (line) polygon with NEAR clipping enabled
and `nearDistance = 0.001`. -/
def c6poly : vpMbtPolygon :=
  { vpMbtPolygon.init with
    nbpt := 2, p := [c6q1, c6q2],
    clippingFlag := vpMbtPolygon.NEAR_CLIPPING, distNearClip := (0.001 : ℝ) }

/-- A camera with no FOV information. -/
def camNoFov : vpCameraParameters := ⟨false, []⟩

/-- A camera-frame point on the optical axis behind the camera, depth `-1`. -/
def ptZneg : vpPoint := ⟨0, 0, 0, 0, 0, -1, 0, 0⟩

/-- C7 witness corner `(0,0,1)` (camera frame, projected). -/
def c7a : vpPoint := ⟨0, 0, 1, 0, 0, 1, 0, 0⟩

/-- C7 witness corner `(1/10,0,1)` (camera frame, projected). -/
def c7b : vpPoint := ⟨1 / 10, 0, 1, 1 / 10, 0, 1, 1 / 10, 0⟩

/-- C7 witness corner `(0,1/10,1)` (camera frame, projected). -/
def c7c : vpPoint := ⟨0, 1 / 10, 1, 0, 1 / 10, 1, 0, 1 / 10⟩

/-- C7 witness triangle: all six planes enabled, near `1/2`, far `2`. -/
def c7poly : vpMbtPolygon :=
  { vpMbtPolygon.init with
    nbpt := 3, p := [c7a, c7b, c7c], clippingFlag := 63,
    distNearClip := (1 / 2 : ℝ), distFarClip := (2 : ℝ) }

/-- C7 witness camera: FOV normals tilted toward `-Z`, so that the three
corners are strictly inside all four half-spaces. -/
def c7cam : vpCameraParameters :=
  ⟨true, [⟨-1, 0, -1⟩, ⟨1, 0, -1⟩, ⟨0, -1, -1⟩, ⟨0, 1, -1⟩]⟩

/-- C8 input point at object depth `1/10`. -/
def c8p1 : vpPoint := ⟨0, 0, 1 / 10, 0, 0, 0, 0, 0⟩

/-- C8 input point at object depth `1/5`. -/
def c8p2 : vpPoint := ⟨0, 0, 1 / 5, 0, 0, 0, 0, 0⟩

/-- `c8p1` after the identity transform and projection. -/
def c8q1 : vpPoint := ⟨0, 0, 1 / 10, 0, 0, 1 / 10, 0, 0⟩

/-- `c8p2` after the identity transform and projection. -/
def c8q2 : vpPoint := ⟨0, 0, 1 / 5, 0, 0, 1 / 5, 0, 0⟩

/-- The polygon `getClippedPolygon` builds for the C8 inputs (defaults kept
because neither the NEAR nor the FAR bit is in mask `4`). -/
def c8polyCode : vpMbtPolygon :=
  { vpMbtPolygon.init with nbpt := 2, p := [c8p1, c8p2], clippingFlag := 4 }

/-- `c8polyCode` after the identity frame change. -/
def c8polyCodeT : vpMbtPolygon :=
  { vpMbtPolygon.init with nbpt := 2, p := [c8q1, c8q2], clippingFlag := 4 }

/-- The polygon the claim-side pipeline builds for the C8 inputs (supplied
near/far distances installed unconditionally). -/
def c8polySpec : vpMbtPolygon :=
  { vpMbtPolygon.init with
    nbpt := 2, p := [c8p1, c8p2], clippingFlag := 4,
    distNearClip := ((1 : ℝ) / 2), distFarClip := (100 : ℝ) }

/-- `c8polySpec` after the identity frame change. -/
def c8polySpecT : vpMbtPolygon :=
  { vpMbtPolygon.init with
    nbpt := 2, p := [c8q1, c8q2], clippingFlag := 4,
    distNearClip := ((1 : ℝ) / 2), distFarClip := (100 : ℝ) }

/-- A small polygon with clip mask `NEAR ||| LEFT = 5`, used as a C4
witness input. -/
def c4poly : vpMbtPolygon := { vpMbtPolygon.init with clippingFlag := 5 }

/-- A concrete triangle (object frame) used as a C5 witness input. -/
def c5poly : vpMbtPolygon :=
  { vpMbtPolygon.init with
    nbpt := 3,
    p := [⟨0, 0, 1, 0, 0, 0, 0, 0⟩, ⟨1, 0, 1, 0, 0, 0, 0, 0⟩,
      ⟨1, -1, 1, 0, 0, 0, 0, 0⟩] }

/-! ## General helper lemmas -/

/-- Dot product with a normalized vector is the raw dot product divided by
the norm. -/
theorem dotProd_normalize3 (v n : vpColVector3) :
    dotProd (normalize3 v) n =
      dotProd v n / Real.sqrt (v.vx * v.vx + v.vy * v.vy + v.vz * v.vz) := by
  simp only [normalize3, dotProd]
  ring

/-- The FOV endpoint angle is below a right angle exactly when the dot
product of the normalized direction with the plane normal is positive. -/
theorem fovAngle_lt_pi_div_two (q : vpPoint) (n : vpColVector3) :
    fovAngle q n < Real.pi / 2 ↔ 0 < dotProd (normalize3 ⟨q.X, q.Y, q.Z⟩) n :=
  Real.arccos_lt_pi_div_two

/-- The FOV endpoint angle is above a right angle exactly when the dot
product of the normalized direction with the plane normal is negative. -/
theorem pi_div_two_lt_fovAngle (q : vpPoint) (n : vpColVector3) :
    Real.pi / 2 < fovAngle q n ↔ dotProd (normalize3 ⟨q.X, q.Y, q.Z⟩) n < 0 := by
  rw [← not_le, ← not_le, fovAngle, Real.arccos_le_pi_div_two]

/-- A point whose stored projection agrees with its camera-frame coordinates
is a fixed point of `projection`. -/
theorem vpPoint.projection_eq_self (q : vpPoint) (hx : q.x = q.X / q.Z)
    (hy : q.y = q.Y / q.Z) : q.projection = q := by
  cases q
  simp_all [vpPoint.projection]

/-- The angle bound is at least a right angle exactly when the normalized
dot product is non-positive. -/
theorem pi_div_two_le_fovAngle (q : vpPoint) (n : vpColVector3) :
    Real.pi / 2 ≤ fovAngle q n ↔ dotProd (normalize3 ⟨q.X, q.Y, q.Z⟩) n ≤ 0 := by
  rw [← not_lt, fovAngle_lt_pi_div_two, not_lt]

/-- `ptZ1` makes an angle below a right angle with the normal `nZ`. -/
theorem fovAngle_ptZ1_nZ_lt : fovAngle ptZ1 nZ < Real.pi / 2 := by
  rw [fovAngle_lt_pi_div_two, dotProd_normalize3]
  norm_num [dotProd, ptZ1, nZ, Real.sqrt_one]

/-- `ptX1Z1` makes an angle below a right angle with the normal `nZ`. -/
theorem fovAngle_ptX1Z1_nZ_lt : fovAngle ptX1Z1 nZ < Real.pi / 2 := by
  rw [fovAngle_lt_pi_div_two, dotProd_normalize3]
  simp only [dotProd, ptX1Z1, nZ]
  norm_num

/-- `ptZneg` makes an angle of at least a right angle with the normal `nZ`. -/
theorem fovAngle_ptZneg_nZ_ge : Real.pi / 2 ≤ fovAngle ptZneg nZ := by
  rw [pi_div_two_le_fovAngle, dotProd_normalize3]
  simp only [dotProd, ptZneg, nZ]
  norm_num [Real.sqrt_one]

/-! ## C1 — field-of-view endpoint classification -/

/-- C1 counterexample: the claim classifies an endpoint as inside exactly
when its angle with the plane normal is below a right angle, so an edge
with both endpoints below a right angle would have to pass through
unchanged.  On the concrete edge `(ptZ1, ptX1Z1)` and normal `nZ` both
angles are below `π/2`, yet the live code returns `false`, i.e. drops the
edge: the live polarity treats an angle below a right angle as outside. -/
theorem fov_polarity_counterexample :
    fovAngle ptZ1 nZ < Real.pi / 2 ∧ fovAngle ptX1Z1 nZ < Real.pi / 2 ∧
    (vpMbtPolygon.getClippedPointsFovGeneric 4 ptZ1 ptX1Z1 0 0 nZ 4).1 = false := by
  refine ⟨fovAngle_ptZ1_nZ_lt, fovAngle_ptX1Z1_nZ_lt, ?_⟩
  rw [vpMbtPolygon.getClippedPointsFovGeneric,
    if_pos (show (4 : ℕ) &&& 4 = 4 by norm_num),
    if_pos ⟨fovAngle_ptZ1_nZ_lt, fovAngle_ptX1Z1_nZ_lt⟩]

/-- C1 amended: with the plane's bit set in the clip mask, an endpoint is
inside the plane's half-space exactly when the angle between its normalized
camera-frame direction and the plane normal is at least (not below) a right
angle; an edge with both endpoints outside (both angles below `π/2`)
contributes nothing, an edge with both endpoints inside passes through
unchanged, and a straddling edge is clipped at the plane crossing with the
newly created vertex (which replaces the outside endpoint) tagged with the
plane's flag. -/
theorem getClippedPointsFovGeneric_cases (cf : ℕ) (p1 p2 : vpPoint)
    (i1 i2 : ℕ) (n : vpColVector3) (flag : ℕ) (hflag : cf &&& flag = flag) :
    ((fovAngle p1 n < Real.pi / 2 ∧ fovAngle p2 n < Real.pi / 2) →
      vpMbtPolygon.getClippedPointsFovGeneric cf p1 p2 i1 i2 n flag =
        (false, p1, p2, i1, i2)) ∧
    ((Real.pi / 2 ≤ fovAngle p1 n ∧ Real.pi / 2 ≤ fovAngle p2 n) →
      vpMbtPolygon.getClippedPointsFovGeneric cf p1 p2 i1 i2 n flag =
        (true, p1, p2, i1, i2)) ∧
    ((fovAngle p1 n < Real.pi / 2 ∧ Real.pi / 2 ≤ fovAngle p2 n) →
      vpMbtPolygon.getClippedPointsFovGeneric cf p1 p2 i1 i2 n flag =
        (true, fovClipPoint p1 p2 n, p2, i1 ||| flag, i2)) ∧
    ((Real.pi / 2 ≤ fovAngle p1 n ∧ fovAngle p2 n < Real.pi / 2) →
      vpMbtPolygon.getClippedPointsFovGeneric cf p1 p2 i1 i2 n flag =
        (true, p1, fovClipPoint p1 p2 n, i1, i2 ||| flag)) := by
  rw [vpMbtPolygon.getClippedPointsFovGeneric, if_pos hflag]
  refine ⟨fun h => ?_, fun h => ?_, fun h => ?_, fun h => ?_⟩
  · rw [if_pos h]
  · rw [if_neg (fun hc => absurd h.1 (not_le.mpr hc.1)),
      if_neg (fun hc => hc.elim (fun h1 => absurd h.1 (not_le.mpr h1))
        (fun h2 => absurd h.2 (not_le.mpr h2)))]
  · rw [if_neg (fun hc => absurd hc.2 (not_lt.mpr h.2)),
      if_pos (Or.inl h.1), if_pos h.1]
  · rw [if_neg (fun hc => absurd hc.1 (not_lt.mpr h.1)),
      if_pos (Or.inr h.2), if_neg (not_lt.mpr h.1)]

/-- C1 amended, witness: the straddling edge from behind the camera
(`ptZneg`, inside: angle ≥ `π/2`) to `ptZ1` (outside: angle < `π/2`)
against the normal `nZ`: the outside endpoint is replaced by the crossing
point and tagged with flag `4`. -/
theorem getClippedPointsFovGeneric_cases_witness :
    ((4 : ℕ) &&& 4 = 4) ∧
    vpMbtPolygon.getClippedPointsFovGeneric 4 ptZ1 ptZneg 0 0 nZ 4 =
      (true, fovClipPoint ptZ1 ptZneg nZ, ptZneg, 0 ||| 4, 0) :=
  ⟨by norm_num,
    (getClippedPointsFovGeneric_cases 4 ptZ1 ptZneg 0 0 nZ 4 (by norm_num)).2.2.1
      ⟨fovAngle_ptZ1_nZ_lt, fovAngle_ptZneg_nZ_ge⟩⟩

/-! ## C2 — copy-assignment of the clip distances -/

/-- C2: the claim states the intended contract (each clip-distance field
copies from its same-named source field).  The source instead assigns
`distNearClip = mbtp.distFarClip` and never assigns `distFarClip`;
evaluating the embedded `operator=` at a source polygon with near `1/4` and
far `7` and a default-constructed destination shows the destination's near
distance becomes `7` (the source's far value, not its near value `1/4`) and
the destination's far distance stays at its previous value `100` (not the
source's `7`). -/
theorem assign_clip_distances_defect :
    (vpMbtPolygon.init.assign c2src).distNearClip = 7 ∧
    c2src.distNearClip = 1 / 4 ∧
    (vpMbtPolygon.init.assign c2src).distNearClip ≠ c2src.distNearClip ∧
    (vpMbtPolygon.init.assign c2src).distFarClip = 100 ∧
    c2src.distFarClip = 7 ∧
    (vpMbtPolygon.init.assign c2src).distFarClip ≠ c2src.distFarClip := by
  refine ⟨rfl, rfl, ?_, rfl, rfl, ?_⟩ <;>
    norm_num [vpMbtPolygon.assign, vpMbtPolygon.init, c2src]

/-! ## C3 — out-of-range corner access -/

/-- C3 counterexample: the claim says `setCorner(i, point)` with `i ≥ n`
fails with an IndexError-equivalent; in the source the bounds check of
`addPoint` is commented out, so the call returns normally (and the
out-of-range write has no effect on the modelled storage): on a 1-corner
polygon, `addPoint 5` is not an error. -/
theorem addPoint_out_of_range_no_error :
    c3poly.nbpt ≤ 5 ∧ c3poly.addPoint 5 default = c3poly := by
  refine ⟨by norm_num [c3poly], ?_⟩
  have h : c3poly.p.set 5 default = c3poly.p :=
    List.set_eq_of_length_le (by norm_num [c3poly, vpMbtPolygon.init])
  simp [vpMbtPolygon.addPoint, h]

/-- C3 amended: out-of-range read access `getPoint(i)` with `i ≥ nbpt` fails
with the `dimensionError` exception, while out-of-range `addPoint(i, P)` is
unchecked and returns normally, leaving the polygon unchanged. -/
theorem corner_access_bounds (poly : vpMbtPolygon) (i : ℕ)
    (hlen : poly.p.length = poly.nbpt) (hi : poly.nbpt ≤ i) :
    poly.getPoint i =
      Except.error (vpException.dimensionError "index out of range") ∧
    ∀ P : vpPoint, poly.addPoint i P = poly := by
  constructor
  · simp [vpMbtPolygon.getPoint, hi]
  · intro P
    have h : poly.p.set i P = poly.p :=
      List.set_eq_of_length_le (by omega)
    simp [vpMbtPolygon.addPoint, h]

/-- C3 amended, witness: the 1-corner polygon at index 5. -/
theorem corner_access_bounds_witness :
    c3poly.p.length = c3poly.nbpt ∧ c3poly.nbpt ≤ 5 ∧
    (c3poly.getPoint 5 =
        Except.error (vpException.dimensionError "index out of range") ∧
      ∀ P : vpPoint, c3poly.addPoint 5 P = c3poly) :=
  ⟨by norm_num [c3poly, vpMbtPolygon.init], by norm_num [c3poly],
    corner_access_bounds c3poly 5 (by norm_num [c3poly, vpMbtPolygon.init])
      (by norm_num [c3poly])⟩

/-! ## C4 — plane iteration order and participation rule -/

/-- Folding a conditional step is folding the unconditional step over the
filtered list. -/
theorem foldl_ite_filter {α : Type} (f : α → ℕ → α) (c : ℕ → Prop)
    [DecidablePred c] (l : List ℕ) (a : α) :
    l.foldl (fun x i => if c i then f x i else x) a =
      (l.filter fun i => decide (c i)).foldl f a := by
  induction l generalizing a with
  | nil => rfl
  | cons hd tl ih =>
    by_cases h : c hd
    · simp [List.filter_cons, h, ih]
    · simp [List.filter_cons, h, ih]

/-- For a mask below 64 and a plane bit among the six, the source's
participation condition (`bit set, or mask > FAR for bit 1`) is equivalent
to the claim's (`bit set, or bit 1 and some bit above FAR set`). -/
theorem near_participation_equiv (cf : ℕ) (h : cf < 64) :
    ∀ i ∈ ([1, 2, 4, 8, 16, 32] : List ℕ),
      (((cf &&& i) = i ∨ (cf > vpMbtPolygon.FAR_CLIPPING ∧ i = 1)) ↔
        ((cf &&& i) = i ∨ (i = 1 ∧ ((cf &&& 4) = 4 ∨ (cf &&& 8) = 8 ∨
          (cf &&& 16) = 16 ∨ (cf &&& 32) = 32)))) := by
  unfold vpMbtPolygon.FAR_CLIPPING
  interval_cases cf <;> decide

/-- C4: for a non-empty clip mask over the six plane bits,
`computeRoiClipped` processes the plane bits in increasing numeric order
`1, 2, 4, 8, 16, 32`, and a plane participates exactly when its bit is set
in the mask, except that the NEAR plane (bit 1) also participates whenever
some bit above FAR (LEFT, RIGHT, UP or DOWN) is set. -/
theorem computeRoiClipped_plane_order (poly : vpMbtPolygon)
    (cam : vpCameraParameters) (h0 : poly.clippingFlag ≠ vpMbtPolygon.NO_CLIPPING)
    (h64 : poly.clippingFlag < 64) :
    (poly.computeRoiClipped cam).roiPointsClip =
      (([1, 2, 4, 8, 16, 32] : List ℕ).filter fun i =>
          decide ((poly.clippingFlag &&& i) = i ∨
            (i = 1 ∧ ((poly.clippingFlag &&& 4) = 4 ∨ (poly.clippingFlag &&& 8) = 8 ∨
              (poly.clippingFlag &&& 16) = 16 ∨ (poly.clippingFlag &&& 32) = 32)))).foldl
        (fun L i =>
          vpMbtPolygon.clipPlane poly.clippingFlag poly.nbpt
            (vpMbtPolygon.fovNormalsOf cam poly.clippingFlag)
            poly.distNearClip poly.distFarClip i L)
        (vpMbtPolygon.initialRoiList poly) := by
  simp only [vpMbtPolygon.computeRoiClipped, if_pos h0]
  rw [foldl_ite_filter
    (fun L i =>
      vpMbtPolygon.clipPlane poly.clippingFlag poly.nbpt
        (vpMbtPolygon.fovNormalsOf cam poly.clippingFlag)
        poly.distNearClip poly.distFarClip i L)
    (fun i => (poly.clippingFlag &&& i) = i ∨
      (poly.clippingFlag > vpMbtPolygon.FAR_CLIPPING ∧ i = 1))]
  rw [List.filter_congr
    (fun i hi => decide_eq_decide.mpr (near_participation_equiv poly.clippingFlag h64 i hi))]

/-- C4 witness: mask `5 = NEAR ||| LEFT` on an empty polygon. -/
theorem computeRoiClipped_plane_order_witness :
    c4poly.clippingFlag ≠ vpMbtPolygon.NO_CLIPPING ∧ c4poly.clippingFlag < 64 ∧
    (c4poly.computeRoiClipped camNoFov).roiPointsClip =
      (([1, 2, 4, 8, 16, 32] : List ℕ).filter fun i =>
          decide ((c4poly.clippingFlag &&& i) = i ∨
            (i = 1 ∧ ((c4poly.clippingFlag &&& 4) = 4 ∨ (c4poly.clippingFlag &&& 8) = 8 ∨
              (c4poly.clippingFlag &&& 16) = 16 ∨ (c4poly.clippingFlag &&& 32) = 32)))).foldl
        (fun L i =>
          vpMbtPolygon.clipPlane c4poly.clippingFlag c4poly.nbpt
            (vpMbtPolygon.fovNormalsOf camNoFov c4poly.clippingFlag)
            c4poly.distNearClip c4poly.distFarClip i L)
        (vpMbtPolygon.initialRoiList c4poly) :=
  ⟨by norm_num [c4poly, vpMbtPolygon.NO_CLIPPING, vpMbtPolygon.init],
    by norm_num [c4poly, vpMbtPolygon.init],
    computeRoiClipped_plane_order c4poly camNoFov
      (by norm_num [c4poly, vpMbtPolygon.NO_CLIPPING, vpMbtPolygon.init])
      (by norm_num [c4poly, vpMbtPolygon.init])⟩

/-! ## C5 — visibility threshold and hysteresis band -/

/-- C5: for a polygon with at least 3 corners, `isVisible` returns `true`
exactly when the computed angle satisfies `angle < alpha` or — with
`wrapAround` — `angle > π - alpha`; the returned boolean equals the stored
visible flag; and when it returns `false`, `appearing` is set exactly when
the angle is within one more degree of the threshold (`angle < alpha + 1°`,
or with `wrapAround` `π - angle < alpha + 1°`). -/
theorem isVisible_angle_threshold (poly : vpMbtPolygon)
    (cMo : vpHomogeneousMatrix) (alpha : ℝ) (modulo : Bool)
    (h : 3 ≤ poly.nbpt) :
    ((poly.isVisible cMo alpha modulo).1 = true ↔
      ((poly.changeFrame cMo).faceAngle < alpha ∨
        (modulo = true ∧ Real.pi - alpha < (poly.changeFrame cMo).faceAngle))) ∧
    ((poly.isVisible cMo alpha modulo).2.isvisible =
      (poly.isVisible cMo alpha modulo).1) ∧
    ((poly.isVisible cMo alpha modulo).1 = false →
      ((poly.isVisible cMo alpha modulo).2.isappearing = true ↔
        ((poly.changeFrame cMo).faceAngle < alpha + vpMathRad 1 ∨
          (modulo = true ∧
            Real.pi - (poly.changeFrame cMo).faceAngle < alpha + vpMathRad 1)))) := by
  have h2 : ¬ poly.nbpt ≤ 2 := by omega
  cases modulo with
  | false =>
    simp only [vpMbtPolygon.isVisible, if_neg h2, Bool.false_eq_true, false_and,
      if_false, false_or]
    split_ifs with hv ha
    · exact ⟨by simp [hv], rfl, by simp⟩
    · exact ⟨by simp [hv], rfl, fun _ => by simp [ha]⟩
    · exact ⟨by simp [hv], rfl, fun _ => by simp [ha]⟩
  | true =>
    simp only [vpMbtPolygon.isVisible, if_neg h2, true_and]
    split_ifs with hv hm ha hb
    · exact ⟨by simp [hv], rfl, by simp⟩
    · exact ⟨by simp [sub_lt_comm.mp hm], rfl, by simp⟩
    · have hm' : ¬ Real.pi - alpha < (poly.changeFrame cMo).faceAngle :=
        fun hx => hm (sub_lt_comm.mp hx)
      exact ⟨by simp [hv, hm'], rfl, fun _ => by simp [ha]⟩
    · have hm' : ¬ Real.pi - alpha < (poly.changeFrame cMo).faceAngle :=
        fun hx => hm (sub_lt_comm.mp hx)
      exact ⟨by simp [hv, hm'], rfl, fun _ => by simp [ha, hb]⟩
    · have hm' : ¬ Real.pi - alpha < (poly.changeFrame cMo).faceAngle :=
        fun hx => hm (sub_lt_comm.mp hx)
      exact ⟨by simp [hv, hm'], rfl, fun _ => by simp [ha, hb]⟩

/-- C5 witness: the concrete triangle `c5poly` under the identity pose at
`alpha = π/2` without wrap-around. -/
theorem isVisible_angle_threshold_witness :
    3 ≤ c5poly.nbpt ∧
    (((c5poly.isVisible idPose (Real.pi / 2) false).1 = true ↔
      ((c5poly.changeFrame idPose).faceAngle < Real.pi / 2 ∨
        (false = true ∧
          Real.pi - Real.pi / 2 < (c5poly.changeFrame idPose).faceAngle))) ∧
    ((c5poly.isVisible idPose (Real.pi / 2) false).2.isvisible =
      (c5poly.isVisible idPose (Real.pi / 2) false).1) ∧
    ((c5poly.isVisible idPose (Real.pi / 2) false).1 = false →
      ((c5poly.isVisible idPose (Real.pi / 2) false).2.isappearing = true ↔
        ((c5poly.changeFrame idPose).faceAngle < Real.pi / 2 + vpMathRad 1 ∨
          (false = true ∧
            Real.pi - (c5poly.changeFrame idPose).faceAngle <
              Real.pi / 2 + vpMathRad 1))))) :=
  ⟨by norm_num [c5poly],
    isVisible_angle_threshold c5poly idPose (Real.pi / 2) false
      (by norm_num [c5poly])⟩

/-! ## C9 — bounding box negative-coordinate sentinel -/

/-- The first component of the `getMinMaxRoi` scan is the scalar fold of the
i-minimum step. -/
theorem foldl_minMaxStep_iMin (l : List vpImagePoint) (s : ℝ × ℝ × ℝ × ℝ) :
    (l.foldl vpMbtPolygon.minMaxStep s).1 =
      l.foldl (fun m pt => if pt.i < 0 then 1 else if m > pt.i then pt.i else m) s.1 := by
  induction l generalizing s with
  | nil => rfl
  | cons hd tl ih =>
    rw [List.foldl_cons, List.foldl_cons, ih]
    congr 1

/-- The second component of the `getMinMaxRoi` scan is the scalar fold of
the i-maximum step. -/
theorem foldl_minMaxStep_iMax (l : List vpImagePoint) (s : ℝ × ℝ × ℝ × ℝ) :
    (l.foldl vpMbtPolygon.minMaxStep s).2.1 =
      l.foldl (fun m pt => if pt.i > 0 ∧ m < pt.i then pt.i else m) s.2.1 := by
  induction l generalizing s with
  | nil => rfl
  | cons hd tl ih =>
    rw [List.foldl_cons, List.foldl_cons, ih]
    congr 1

/-- The third component of the `getMinMaxRoi` scan is the scalar fold of the
j-minimum step. -/
theorem foldl_minMaxStep_jMin (l : List vpImagePoint) (s : ℝ × ℝ × ℝ × ℝ) :
    (l.foldl vpMbtPolygon.minMaxStep s).2.2.1 =
      l.foldl (fun m pt => if pt.j < 0 then 1 else if m > pt.j then pt.j else m) s.2.2.1 := by
  induction l generalizing s with
  | nil => rfl
  | cons hd tl ih =>
    rw [List.foldl_cons, List.foldl_cons, ih]
    congr 1

/-- The fourth component of the `getMinMaxRoi` scan is the scalar fold of
the j-maximum step. -/
theorem foldl_minMaxStep_jMax (l : List vpImagePoint) (s : ℝ × ℝ × ℝ × ℝ) :
    (l.foldl vpMbtPolygon.minMaxStep s).2.2.2 =
      l.foldl (fun m pt => if pt.j > 0 ∧ m < pt.j then pt.j else m) s.2.2.2 := by
  induction l generalizing s with
  | nil => rfl
  | cons hd tl ih =>
    rw [List.foldl_cons, List.foldl_cons, ih]
    congr 1

/-- A minimum scan started inside `[0,1]` stays inside `[0,1]`. -/
theorem minFold_bounds (g : vpImagePoint → ℝ) (l : List vpImagePoint) (m : ℝ)
    (h0 : 0 ≤ m) (h1 : m ≤ 1) :
    0 ≤ l.foldl (fun m pt => if g pt < 0 then 1 else if m > g pt then g pt else m) m ∧
      l.foldl (fun m pt => if g pt < 0 then 1 else if m > g pt then g pt else m) m ≤ 1 := by
  induction l generalizing m with
  | nil => exact ⟨h0, h1⟩
  | cons hd tl ih =>
    rw [List.foldl_cons]
    by_cases hneg : g hd < 0
    · rw [if_pos hneg]
      exact ih 1 (by norm_num) le_rfl
    · rw [if_neg hneg]
      by_cases hlt : m > g hd
      · rw [if_pos hlt]
        exact ih (g hd) (not_lt.mp hneg) (le_trans (le_of_lt hlt) h1)
      · rw [if_neg hlt]
        exact ih m h0 h1
/-- After the scan has seen a negative coordinate, the running minimum ends
inside `[0,1]` regardless of where it started. -/
theorem minFold_after_neg (g : vpImagePoint → ℝ) (l : List vpImagePoint) (m : ℝ)
    (h : ∃ pt ∈ l, g pt < 0) :
    0 ≤ l.foldl (fun m pt => if g pt < 0 then 1 else if m > g pt then g pt else m) m ∧
      l.foldl (fun m pt => if g pt < 0 then 1 else if m > g pt then g pt else m) m ≤ 1 := by
  induction l generalizing m with
  | nil => exact absurd h (by simp)
  | cons hd tl ih =>
    rw [List.foldl_cons]
    by_cases hneg : g hd < 0
    · rw [if_pos hneg]
      exact minFold_bounds g tl 1 (by norm_num) le_rfl
    · rw [if_neg hneg]
      obtain ⟨pt, hmem, hpt⟩ := h
      rcases List.mem_cons.mp hmem with rfl | hmem'
      · exact absurd hpt hneg
      · exact ih _ ⟨pt, hmem', hpt⟩

/-- The maximum scan ignores non-positive coordinates: it equals the scan of
the sublist of strictly positive coordinates. -/
theorem maxFold_filter (g : vpImagePoint → ℝ) (l : List vpImagePoint) (m : ℝ) :
    l.foldl (fun m pt => if g pt > 0 ∧ m < g pt then g pt else m) m =
      (l.filter fun pt => decide (0 < g pt)).foldl
        (fun m pt => if g pt > 0 ∧ m < g pt then g pt else m) m := by
  induction l generalizing m with
  | nil => rfl
  | cons hd tl ih =>
    by_cases hpos : 0 < g hd
    · rw [List.filter_cons, if_pos (by simpa using hpos), List.foldl_cons,
        List.foldl_cons, ih]
    · rw [List.filter_cons, if_neg (by simpa using hpos), List.foldl_cons,
        if_neg (fun hc => absurd hc.1 hpos), ih]

/-- Truncation toward zero of a real in `[0,1]` lies in `[0,1]`. -/
theorem truncInt_mem_upTo_one (r : ℝ) (h0 : 0 ≤ r) (h1 : r ≤ 1) :
    0 ≤ vpMbtPolygon.truncInt r ∧ vpMbtPolygon.truncInt r ≤ 1 := by
  rw [vpMbtPolygon.truncInt, if_pos h0]
  refine ⟨Int.floor_nonneg.mpr h0, ?_⟩
  have := Int.floor_le_floor (α := ℝ) h1
  simpa using this

/-- C9 amended: a negative coordinate on an axis forces that axis's running
minimum to the at-the-border sentinel `1` at that point of the scan, so the
literal negative value never reaches the result — the returned minimum on
that axis lies between `0` and `1` (a later coordinate inside `[0,1)` may
still pull it below `1`); the returned maximum on each axis is updated only
from strictly positive coordinates (it equals the maximum computed over the
strictly positive coordinates alone). -/
theorem getMinMaxRoi_sentinel (iroi : List vpImagePoint) :
    ((∃ pt ∈ iroi, pt.i < 0) →
      0 ≤ (vpMbtPolygon.getMinMaxRoi iroi).1 ∧ (vpMbtPolygon.getMinMaxRoi iroi).1 ≤ 1) ∧
    ((∃ pt ∈ iroi, pt.j < 0) →
      0 ≤ (vpMbtPolygon.getMinMaxRoi iroi).2.2.1 ∧
        (vpMbtPolygon.getMinMaxRoi iroi).2.2.1 ≤ 1) ∧
    (vpMbtPolygon.getMinMaxRoi iroi).2.1 =
      (vpMbtPolygon.getMinMaxRoi (iroi.filter fun pt => decide (0 < pt.i))).2.1 ∧
    (vpMbtPolygon.getMinMaxRoi iroi).2.2.2 =
      (vpMbtPolygon.getMinMaxRoi (iroi.filter fun pt => decide (0 < pt.j))).2.2.2 := by
  refine ⟨fun h => ?_, fun h => ?_, ?_, ?_⟩
  · have hb := minFold_after_neg (fun pt => pt.i) iroi 2147483647 h
    rw [← foldl_minMaxStep_iMin iroi ((2147483647 : ℝ), 0, 2147483647, 0)] at hb
    exact truncInt_mem_upTo_one _ hb.1 hb.2
  · have hb := minFold_after_neg (fun pt => pt.j) iroi 2147483647 h
    rw [← foldl_minMaxStep_jMin iroi ((2147483647 : ℝ), 0, 2147483647, 0)] at hb
    exact truncInt_mem_upTo_one _ hb.1 hb.2
  · show vpMbtPolygon.truncInt _ = vpMbtPolygon.truncInt _
    rw [vpMbtPolygon.getMinMaxState, vpMbtPolygon.getMinMaxState,
      foldl_minMaxStep_iMax, foldl_minMaxStep_iMax, maxFold_filter]
  · show vpMbtPolygon.truncInt _ = vpMbtPolygon.truncInt _
    rw [vpMbtPolygon.getMinMaxState, vpMbtPolygon.getMinMaxState,
      foldl_minMaxStep_jMax, foldl_minMaxStep_jMax, maxFold_filter]

/-- C9 counterexample: the claim says a negative coordinate on an axis makes
the returned minimum on that axis `1`.  On the list
`[(-5, 2), (1/2, 2)]` the i-axis has a negative coordinate, but the later
coordinate `1/2` lowers the running minimum again after the sentinel was
written, and the returned i-minimum is `0` (the int cast of `1/2`), not
`1`. -/
theorem getMinMaxRoi_negative_counterexample :
    (∃ pt ∈ ([⟨-5, 2⟩, ⟨1 / 2, 2⟩] : List vpImagePoint), pt.i < 0) ∧
    (vpMbtPolygon.getMinMaxRoi [⟨-5, 2⟩, ⟨1 / 2, 2⟩]).1 = 0 ∧
    (vpMbtPolygon.getMinMaxRoi [⟨-5, 2⟩, ⟨1 / 2, 2⟩]).1 ≠ 1 := by
  refine ⟨⟨⟨-5, 2⟩, by simp, by norm_num⟩, ?_⟩
  have h : (vpMbtPolygon.getMinMaxRoi [⟨-5, 2⟩, ⟨1 / 2, 2⟩]).1 = 0 := by
    norm_num [vpMbtPolygon.getMinMaxRoi, vpMbtPolygon.getMinMaxState,
      vpMbtPolygon.minMaxStep, vpMbtPolygon.truncInt, List.foldl,
      Int.floor_eq_zero_iff, Set.mem_Ico]
  exact ⟨h, by rw [h]; norm_num⟩

/-- C9 amended, witness: a single negative point. -/
theorem getMinMaxRoi_sentinel_witness :
    (0 ≤ (vpMbtPolygon.getMinMaxRoi [⟨-3, 4⟩]).1 ∧
      (vpMbtPolygon.getMinMaxRoi [⟨-3, 4⟩]).1 ≤ 1) ∧
    (vpMbtPolygon.getMinMaxRoi [⟨-3, 4⟩]).2.1 =
      (vpMbtPolygon.getMinMaxRoi
        (([⟨-3, 4⟩] : List vpImagePoint).filter fun pt => decide (0 < pt.i))).2.1 :=
  ⟨(getMinMaxRoi_sentinel [⟨-3, 4⟩]).1 ⟨⟨-3, 4⟩, by simp, by norm_num⟩,
    (getMinMaxRoi_sentinel [⟨-3, 4⟩]).2.2.1⟩

/-! ## C6 — 2-corner NEAR straddle -/

/-- C6: on the degenerate 2-corner polygon with endpoints at camera depths
`0.0005` (outside) and `0.01` (inside), `nearDistance = 0.001` and NEAR
clipping enabled, the clipped boundary is exactly two vertices: the
interpolated point with `Z` exactly `0.001` tagged `NEAR` (flag `1`), and
the original inside endpoint unchanged with flags `NONE`; the edge loop
breaks after the surviving segment instead of wrapping to a closing
edge. -/
theorem computeRoiClipped_near_straddle_line :
    (c6poly.computeRoiClipped camNoFov).roiPointsClip =
      [(⟨0, 0, 0, 0, 0, (0.001 : ℝ), 0, 0⟩, vpMbtPolygon.NEAR_CLIPPING),
        (c6q2, vpMbtPolygon.NO_CLIPPING)] := by
  have hdist : vpMbtPolygon.getClippedPointsDistance c6q1 c6q2 0 0 1 (0.001 : ℝ) =
      (true, ⟨0, 0, 0, 0, 0, (0.001 : ℝ), 0, 0⟩, c6q2, 1, 0) := by
    rw [vpMbtPolygon.getClippedPointsDistance]
    norm_num [vpMbtPolygon.FAR_CLIPPING, vpMbtPolygon.NEAR_CLIPPING,
      distClipPoint, c6q1, c6q2]
  have hstep : vpMbtPolygon.clipStep 1 2 [] (0.001 : ℝ) (100 : ℝ) 1
      [(c6q1, 0), (c6q2, 0)] 0 =
      (true, [(⟨0, 0, 0, 0, 0, (0.001 : ℝ), 0, 0⟩, 1), (c6q2, 0)]) := by
    rw [vpMbtPolygon.clipStep]
    have e1 : ([(c6q1, 0), (c6q2, 0)] : List (vpPoint × ℕ)).getD 0 default =
        (c6q1, 0) := rfl
    have e2 : ([(c6q1, 0), (c6q2, 0)] : List (vpPoint × ℕ)).getD
        ((0 + 1) % ([(c6q1, 0), (c6q2, 0)] : List (vpPoint × ℕ)).length) default =
        (c6q2, 0) := rfl
    rw [e1, e2]
    rw [show vpMbtPolygon.planeClipEdge 1 [] (0.001 : ℝ) (100 : ℝ) 1 c6q1 c6q2 0 0 =
        vpMbtPolygon.getClippedPointsDistance c6q1 c6q2 0 0 1 (0.001 : ℝ) from rfl]
    rw [hdist]
    norm_num [vpPoint.projection, c6q2]
  have hplane : vpMbtPolygon.clipPlane 1 2 [] (0.001 : ℝ) (100 : ℝ) 1
      [(c6q1, 0), (c6q2, 0)] =
      [(⟨0, 0, 0, 0, 0, (0.001 : ℝ), 0, 0⟩, 1), (c6q2, 0)] := by
    rw [vpMbtPolygon.clipPlane]
    rw [show ([(c6q1, 0), (c6q2, 0)] : List (vpPoint × ℕ)).length = 2 from rfl]
    rw [show (2 : ℕ) = 1 + 1 from rfl, vpMbtPolygon.clipPlaneGo]
    rw [hstep]
    norm_num
  have hinit : vpMbtPolygon.initialRoiList c6poly = [(c6q1, 0), (c6q2, 0)] := rfl
  rw [vpMbtPolygon.computeRoiClipped]
  rw [if_pos (show c6poly.clippingFlag ≠ vpMbtPolygon.NO_CLIPPING by
    norm_num [c6poly, vpMbtPolygon.init, vpMbtPolygon.NEAR_CLIPPING,
      vpMbtPolygon.NO_CLIPPING])]
  rw [hinit]
  have hcf : c6poly.clippingFlag = 1 := rfl
  have hnb : c6poly.nbpt = 2 := rfl
  have hnear : c6poly.distNearClip = (0.001 : ℝ) := rfl
  have hfar : c6poly.distFarClip = (100 : ℝ) := rfl
  have hfov : vpMbtPolygon.fovNormalsOf camNoFov c6poly.clippingFlag = [] := rfl
  rw [hfov, hcf, hnb, hnear, hfar]
  rw [List.foldl_cons, if_pos (by norm_num : ((1 : ℕ) &&& 1) = 1 ∨
    ((1 : ℕ) > vpMbtPolygon.FAR_CLIPPING ∧ (1 : ℕ) = 1))]
  rw [hplane]
  rw [List.foldl_cons, if_neg (by norm_num [vpMbtPolygon.FAR_CLIPPING] :
    ¬ (((1 : ℕ) &&& 2) = 2 ∨ ((1 : ℕ) > vpMbtPolygon.FAR_CLIPPING ∧ (2 : ℕ) = 1)))]
  rw [List.foldl_cons, if_neg (by norm_num [vpMbtPolygon.FAR_CLIPPING] :
    ¬ (((1 : ℕ) &&& 4) = 4 ∨ ((1 : ℕ) > vpMbtPolygon.FAR_CLIPPING ∧ (4 : ℕ) = 1)))]
  rw [List.foldl_cons, if_neg (by norm_num [vpMbtPolygon.FAR_CLIPPING] :
    ¬ (((1 : ℕ) &&& 8) = 8 ∨ ((1 : ℕ) > vpMbtPolygon.FAR_CLIPPING ∧ (8 : ℕ) = 1)))]
  rw [List.foldl_cons, if_neg (by norm_num [vpMbtPolygon.FAR_CLIPPING] :
    ¬ (((1 : ℕ) &&& 16) = 16 ∨ ((1 : ℕ) > vpMbtPolygon.FAR_CLIPPING ∧ (16 : ℕ) = 1)))]
  rw [List.foldl_cons, if_neg (by norm_num [vpMbtPolygon.FAR_CLIPPING] :
    ¬ (((1 : ℕ) &&& 32) = 32 ∨ ((1 : ℕ) > vpMbtPolygon.FAR_CLIPPING ∧ (32 : ℕ) = 1)))]
  rw [List.foldl_nil]
  simp [vpMbtPolygon.NEAR_CLIPPING, vpMbtPolygon.NO_CLIPPING]

/-! ## C7 — clipping is the identity on fully-inside input -/

/-- A NEAR-plane edge with both endpoints at depth at least the distance is
returned unchanged. -/
theorem getClippedPointsDistance_near_kept (p1 p2 : vpPoint) (i1 i2 : ℕ)
    (d : ℝ) (h1 : ¬ p1.Z < d) (h2 : ¬ p2.Z < d) :
    vpMbtPolygon.getClippedPointsDistance p1 p2 i1 i2 1 d =
      (true, p1, p2, i1, i2) := by
  rw [vpMbtPolygon.getClippedPointsDistance]
  simp only [eq_false (show ¬ (1 : ℕ) = vpMbtPolygon.FAR_CLIPPING by
    norm_num [vpMbtPolygon.FAR_CLIPPING]), if_false]
  rw [if_neg (fun hc => h1 hc.1), if_neg (fun hc => hc.elim h1 h2)]

/-- A FAR-plane edge with both endpoints at depth at most the distance is
returned unchanged. -/
theorem getClippedPointsDistance_far_kept (p1 p2 : vpPoint) (i1 i2 : ℕ)
    (d : ℝ) (h1 : ¬ p1.Z > d) (h2 : ¬ p2.Z > d) :
    vpMbtPolygon.getClippedPointsDistance p1 p2 i1 i2 2 d =
      (true, p1, p2, i1, i2) := by
  rw [vpMbtPolygon.getClippedPointsDistance]
  simp only [eq_true (show (2 : ℕ) = vpMbtPolygon.FAR_CLIPPING from rfl), if_true]
  rw [if_neg (fun hc => h1 hc.1), if_neg (fun hc => hc.elim h1 h2)]

/-- A FOV-plane edge with both endpoints at an angle of at least a right
angle from the normal is returned unchanged (whether or not the plane's bit
is in the mask). -/
theorem getClippedPointsFovGeneric_kept (cf : ℕ) (p1 p2 : vpPoint)
    (i1 i2 : ℕ) (n : vpColVector3) (flag : ℕ)
    (h1 : ¬ fovAngle p1 n < Real.pi / 2) (h2 : ¬ fovAngle p2 n < Real.pi / 2) :
    vpMbtPolygon.getClippedPointsFovGeneric cf p1 p2 i1 i2 n flag =
      (true, p1, p2, i1, i2) := by
  rw [vpMbtPolygon.getClippedPointsFovGeneric]
  split_ifs with hm hc1 hc2
  · exact absurd hc1.1 h1
  · exact absurd (hc2.elim (fun h => h) (fun h => absurd h h2)) h1
  · rfl
  · rfl

/-- Dispatch of the edge switch for plane bit 4 (LEFT). -/
theorem planeClipEdge_left (cf : ℕ) (fovN : List vpColVector3) (dn df : ℝ)
    (p1 p2 : vpPoint) (i1 i2 : ℕ) :
    vpMbtPolygon.planeClipEdge cf fovN dn df 4 p1 p2 i1 i2 =
      vpMbtPolygon.getClippedPointsFovGeneric cf p1 p2 i1 i2
        (fovN.getD 0 default) vpMbtPolygon.LEFT_CLIPPING := rfl

/-- Dispatch of the edge switch for plane bit 8 (RIGHT). -/
theorem planeClipEdge_right (cf : ℕ) (fovN : List vpColVector3) (dn df : ℝ)
    (p1 p2 : vpPoint) (i1 i2 : ℕ) :
    vpMbtPolygon.planeClipEdge cf fovN dn df 8 p1 p2 i1 i2 =
      vpMbtPolygon.getClippedPointsFovGeneric cf p1 p2 i1 i2
        (fovN.getD 1 default) vpMbtPolygon.RIGHT_CLIPPING := rfl

/-- Dispatch of the edge switch for plane bit 16 (UP). -/
theorem planeClipEdge_up (cf : ℕ) (fovN : List vpColVector3) (dn df : ℝ)
    (p1 p2 : vpPoint) (i1 i2 : ℕ) :
    vpMbtPolygon.planeClipEdge cf fovN dn df 16 p1 p2 i1 i2 =
      vpMbtPolygon.getClippedPointsFovGeneric cf p1 p2 i1 i2
        (fovN.getD 2 default) vpMbtPolygon.UP_CLIPPING := rfl

/-- Dispatch of the edge switch for plane bit 32 (DOWN). -/
theorem planeClipEdge_down (cf : ℕ) (fovN : List vpColVector3) (dn df : ℝ)
    (p1 p2 : vpPoint) (i1 i2 : ℕ) :
    vpMbtPolygon.planeClipEdge cf fovN dn df 32 p1 p2 i1 i2 =
      vpMbtPolygon.getClippedPointsFovGeneric cf p1 p2 i1 i2
        (fovN.getD 3 default) vpMbtPolygon.DOWN_CLIPPING := rfl

/-- A full pass of one clip plane over a working list on which every edge is
kept unchanged (and whose points are fixed by `projection`) rebuilds the
list as it stands. -/
theorem clipPlaneGo_all_kept (cf nbpt : ℕ) (fovN : List vpColVector3)
    (dn df : ℝ) (i : ℕ) (L : List (vpPoint × ℕ))
    (hkeep : ∀ j : ℕ, j < L.length →
      vpMbtPolygon.planeClipEdge cf fovN dn df i (L.getD j default).1
        (L.getD ((j + 1) % L.length) default).1 (L.getD j default).2
        (L.getD ((j + 1) % L.length) default).2 =
      (true, (L.getD j default).1, (L.getD ((j + 1) % L.length) default).1,
        (L.getD j default).2, (L.getD ((j + 1) % L.length) default).2))
    (hproj : ∀ e ∈ L, (e.1 : vpPoint).projection = e.1)
    (hn : nbpt ≠ 2) :
    ∀ k j acc, j + k = L.length →
      vpMbtPolygon.clipPlaneGo cf nbpt fovN dn df i L k j acc =
        acc ++ L.drop j := by
  intro k
  induction k with
  | zero =>
    intro j acc hj
    rw [vpMbtPolygon.clipPlaneGo, List.drop_eq_nil_of_le (by omega),
      List.append_nil]
  | succ m ih =>
    intro j acc hj
    have hjlt : j < L.length := by omega
    have hstep : vpMbtPolygon.clipStep cf nbpt fovN dn df i L j =
        (false, [L.getD j default]) := by
      simp only [vpMbtPolygon.clipStep]
      rw [hkeep j hjlt]
      dsimp only
      rw [if_pos rfl]
      rw [if_neg (show ¬ (L.getD ((j + 1) % L.length) default).2 ≠
        (L.getD ((j + 1) % L.length) default).2 from fun hne => hne rfl)]
      rw [if_neg hn]
      rw [hproj (L.getD j default)
        (by rw [List.getD_eq_getElem _ _ hjlt]; exact List.getElem_mem hjlt)]
    simp only [vpMbtPolygon.clipPlaneGo]
    rw [hstep]
    dsimp only
    rw [if_neg (by norm_num)]
    rw [ih (j + 1) (acc ++ [L.getD j default]) (by omega)]
    rw [List.getD_eq_getElem _ _ hjlt, List.append_assoc, List.singleton_append,
      ← List.drop_eq_getElem_cons hjlt]

/-- One full plane pass leaves an all-kept working list unchanged. -/
theorem clipPlane_all_kept (cf nbpt : ℕ) (fovN : List vpColVector3)
    (dn df : ℝ) (i : ℕ) (L : List (vpPoint × ℕ))
    (hkeep : ∀ j : ℕ, j < L.length →
      vpMbtPolygon.planeClipEdge cf fovN dn df i (L.getD j default).1
        (L.getD ((j + 1) % L.length) default).1 (L.getD j default).2
        (L.getD ((j + 1) % L.length) default).2 =
      (true, (L.getD j default).1, (L.getD ((j + 1) % L.length) default).1,
        (L.getD j default).2, (L.getD ((j + 1) % L.length) default).2))
    (hproj : ∀ e ∈ L, (e.1 : vpPoint).projection = e.1)
    (hn : nbpt ≠ 2) :
    vpMbtPolygon.clipPlane cf nbpt fovN dn df i L = L := by
  rw [vpMbtPolygon.clipPlane,
    clipPlaneGo_all_kept cf nbpt fovN dn df i L hkeep hproj hn L.length 0 []
      (by omega)]
  rw [List.drop_zero, List.nil_append]

/-- The initial working list is the corner list paired with `NO_CLIPPING`
whenever the stored corner count matches the list length. -/
theorem initialRoiList_eq (poly : vpMbtPolygon) (hp : poly.p.length = poly.nbpt) :
    vpMbtPolygon.initialRoiList poly =
      poly.p.map (fun q => (q, vpMbtPolygon.NO_CLIPPING)) := by
  apply List.ext_getElem
  · simp [vpMbtPolygon.initialRoiList, hp]
  · intro n h1 h2
    have hn : n < poly.nbpt := by
      simpa [vpMbtPolygon.initialRoiList] using h1
    simp only [vpMbtPolygon.initialRoiList, List.getElem_map, List.getElem_range]
    rw [Nat.mod_eq_of_lt hn, List.getD_eq_getElem _ _ (by omega)]

/-- C7: for a triangle whose (already transformed and projected) corners all
lie strictly between the near and far distances and strictly inside all four
FOV half-spaces (each corner's angle with each normal strictly above a right
angle, the inside side of the live code), clipping with all six planes
enabled returns exactly the original three corners, in order, with origin
flags `NONE`. -/
theorem computeRoiClipped_noop_triangle (poly : vpMbtPolygon)
    (cam : vpCameraParameters) (hn : poly.nbpt = 3) (hp : poly.p.length = 3)
    (hcf : poly.clippingFlag = 63) (hfovc : cam.isFovComputed = true)
    (hfovlen : cam.fovNormals.length = 4)
    (hnear : ∀ q ∈ poly.p, poly.distNearClip < q.Z)
    (hfar : ∀ q ∈ poly.p, q.Z < poly.distFarClip)
    (hfov : ∀ q ∈ poly.p, ∀ nv ∈ cam.fovNormals, Real.pi / 2 < fovAngle q nv)
    (hproj : ∀ q ∈ poly.p, q.projection = q) :
    (poly.computeRoiClipped cam).roiPointsClip =
      poly.p.map (fun q => (q, vpMbtPolygon.NO_CLIPPING)) := by
  have hplen : poly.p.length = poly.nbpt := by rw [hp, hn]
  simp only [vpMbtPolygon.computeRoiClipped]
  rw [show vpMbtPolygon.fovNormalsOf cam poly.clippingFlag = cam.fovNormals from by
    rw [vpMbtPolygon.fovNormalsOf, if_pos ⟨hfovc, by rw [hcf]; norm_num⟩]]
  rw [initialRoiList_eq poly hplen]
  rw [if_pos (show poly.clippingFlag ≠ vpMbtPolygon.NO_CLIPPING by
    rw [hcf]; norm_num [vpMbtPolygon.NO_CLIPPING])]
  rw [hcf, hn]
  set L := poly.p.map (fun q => (q, vpMbtPolygon.NO_CLIPPING)) with hL
  have hLlen : L.length = 3 := by rw [hL, List.length_map, hp]
  have hLmem : ∀ j : ℕ, j < L.length → (L.getD j default).1 ∈ poly.p := by
    intro j hj
    rw [List.getD_eq_getElem _ _ hj]
    have he : L[j] = (poly.p.get ⟨j, by omega⟩, vpMbtPolygon.NO_CLIPPING) := by
      simp [hL]
    rw [he]
    exact List.get_mem _ _ _
  have hprojL : ∀ e ∈ L, (e.1 : vpPoint).projection = e.1 := by
    intro e he
    rw [hL] at he
    rcases List.mem_map.mp he with ⟨q, hq, rfl⟩
    exact hproj q hq
  have hnormmem : ∀ k : ℕ, k < 4 → cam.fovNormals.getD k default ∈ cam.fovNormals := by
    intro k hk
    rw [List.getD_eq_getElem _ _ (by omega : k < cam.fovNormals.length)]
    exact List.getElem_mem _
  have hn2 : (3 : ℕ) ≠ 2 := by norm_num
  have hpass1 : vpMbtPolygon.clipPlane 63 3 cam.fovNormals poly.distNearClip
      poly.distFarClip 1 L = L := by
    refine clipPlane_all_kept _ _ _ _ _ _ _ (fun j hj => ?_) hprojL hn2
    have hj2 : (j + 1) % L.length < L.length := Nat.mod_lt _ (by omega)
    exact getClippedPointsDistance_near_kept _ _ _ _ _
      (not_lt.mpr (le_of_lt (hnear _ (hLmem j hj))))
      (not_lt.mpr (le_of_lt (hnear _ (hLmem _ hj2))))
  have hpass2 : vpMbtPolygon.clipPlane 63 3 cam.fovNormals poly.distNearClip
      poly.distFarClip 2 L = L := by
    refine clipPlane_all_kept _ _ _ _ _ _ _ (fun j hj => ?_) hprojL hn2
    have hj2 : (j + 1) % L.length < L.length := Nat.mod_lt _ (by omega)
    exact getClippedPointsDistance_far_kept _ _ _ _ _
      (not_lt.mpr (le_of_lt (hfar _ (hLmem j hj))))
      (not_lt.mpr (le_of_lt (hfar _ (hLmem _ hj2))))
  have hpass4 : vpMbtPolygon.clipPlane 63 3 cam.fovNormals poly.distNearClip
      poly.distFarClip 4 L = L := by
    refine clipPlane_all_kept _ _ _ _ _ _ _ (fun j hj => ?_) hprojL hn2
    have hj2 : (j + 1) % L.length < L.length := Nat.mod_lt _ (by omega)
    rw [planeClipEdge_left]
    exact getClippedPointsFovGeneric_kept _ _ _ _ _ _ _
      (not_lt.mpr (le_of_lt (hfov _ (hLmem j hj) _ (hnormmem 0 (by norm_num)))))
      (not_lt.mpr (le_of_lt (hfov _ (hLmem _ hj2) _ (hnormmem 0 (by norm_num)))))
  have hpass8 : vpMbtPolygon.clipPlane 63 3 cam.fovNormals poly.distNearClip
      poly.distFarClip 8 L = L := by
    refine clipPlane_all_kept _ _ _ _ _ _ _ (fun j hj => ?_) hprojL hn2
    have hj2 : (j + 1) % L.length < L.length := Nat.mod_lt _ (by omega)
    rw [planeClipEdge_right]
    exact getClippedPointsFovGeneric_kept _ _ _ _ _ _ _
      (not_lt.mpr (le_of_lt (hfov _ (hLmem j hj) _ (hnormmem 1 (by norm_num)))))
      (not_lt.mpr (le_of_lt (hfov _ (hLmem _ hj2) _ (hnormmem 1 (by norm_num)))))
  have hpass16 : vpMbtPolygon.clipPlane 63 3 cam.fovNormals poly.distNearClip
      poly.distFarClip 16 L = L := by
    refine clipPlane_all_kept _ _ _ _ _ _ _ (fun j hj => ?_) hprojL hn2
    have hj2 : (j + 1) % L.length < L.length := Nat.mod_lt _ (by omega)
    rw [planeClipEdge_up]
    exact getClippedPointsFovGeneric_kept _ _ _ _ _ _ _
      (not_lt.mpr (le_of_lt (hfov _ (hLmem j hj) _ (hnormmem 2 (by norm_num)))))
      (not_lt.mpr (le_of_lt (hfov _ (hLmem _ hj2) _ (hnormmem 2 (by norm_num)))))
  have hpass32 : vpMbtPolygon.clipPlane 63 3 cam.fovNormals poly.distNearClip
      poly.distFarClip 32 L = L := by
    refine clipPlane_all_kept _ _ _ _ _ _ _ (fun j hj => ?_) hprojL hn2
    have hj2 : (j + 1) % L.length < L.length := Nat.mod_lt _ (by omega)
    rw [planeClipEdge_down]
    exact getClippedPointsFovGeneric_kept _ _ _ _ _ _ _
      (not_lt.mpr (le_of_lt (hfov _ (hLmem j hj) _ (hnormmem 3 (by norm_num)))))
      (not_lt.mpr (le_of_lt (hfov _ (hLmem _ hj2) _ (hnormmem 3 (by norm_num)))))
  simp only [List.foldl_cons, List.foldl_nil]
  rw [if_pos (Or.inl (by decide : ((63 : ℕ) &&& 1) = 1)), hpass1]
  rw [if_pos (Or.inl (by decide : ((63 : ℕ) &&& 2) = 2)), hpass2]
  rw [if_pos (Or.inl (by decide : ((63 : ℕ) &&& 4) = 4)), hpass4]
  rw [if_pos (Or.inl (by decide : ((63 : ℕ) &&& 8) = 8)), hpass8]
  rw [if_pos (Or.inl (by decide : ((63 : ℕ) &&& 16) = 16)), hpass16]
  rw [if_pos (Or.inl (by decide : ((63 : ℕ) &&& 32) = 32)), hpass32]

/-- The FOV angle is above a right angle whenever the raw dot product with
the normal is negative and the point is not at the origin. -/
theorem fovAngle_gt_of_dot_neg (q : vpPoint) (n : vpColVector3)
    (hdot : dotProd ⟨q.X, q.Y, q.Z⟩ n < 0)
    (hq : 0 < q.X * q.X + q.Y * q.Y + q.Z * q.Z) :
    Real.pi / 2 < fovAngle q n := by
  rw [pi_div_two_lt_fovAngle, dotProd_normalize3]
  exact div_neg_of_neg_of_pos hdot (Real.sqrt_pos.mpr hq)

/-- C7 witness: the concrete triangle `c7poly` and camera `c7cam`. -/
theorem computeRoiClipped_noop_triangle_witness :
    c7poly.nbpt = 3 ∧ c7poly.clippingFlag = 63 ∧
    (c7poly.computeRoiClipped c7cam).roiPointsClip =
      c7poly.p.map (fun q => (q, vpMbtPolygon.NO_CLIPPING)) := by
  refine ⟨rfl, rfl, ?_⟩
  refine computeRoiClipped_noop_triangle c7poly c7cam rfl rfl rfl rfl rfl ?_ ?_ ?_ ?_
  · intro q hq
    simp only [c7poly, vpMbtPolygon.init] at hq
    fin_cases hq <;> norm_num [c7poly, vpMbtPolygon.init, c7a, c7b, c7c]
  · intro q hq
    simp only [c7poly, vpMbtPolygon.init] at hq
    fin_cases hq <;> norm_num [c7poly, vpMbtPolygon.init, c7a, c7b, c7c]
  · intro q hq nv hnv
    simp only [c7poly, vpMbtPolygon.init] at hq
    simp only [c7cam] at hnv
    fin_cases hq <;> fin_cases hnv <;>
      · apply fovAngle_gt_of_dot_neg <;> norm_num [dotProd, c7a, c7b, c7c]
  · intro q hq
    simp only [c7poly, vpMbtPolygon.init] at hq
    fin_cases hq <;>
      · apply vpPoint.projection_eq_self <;> norm_num [c7a, c7b, c7c]

/-! ## C8 — one-shot clipping convenience function -/

/-- The `addPoint` loop only rewrites the corner storage. -/
theorem foldl_addPoint_p (ptIn : List vpPoint) (poly0 : vpMbtPolygon)
    (l : List ℕ) :
    l.foldl (fun q i => q.addPoint i (ptIn.getD i default)) poly0 =
      { poly0 with
        p := l.foldl (fun p i => p.set i (ptIn.getD i default)) poly0.p } := by
  induction l generalizing poly0 with
  | nil => rfl
  | cons hd tl ih =>
    rw [List.foldl_cons, List.foldl_cons, ih]
    simp [vpMbtPolygon.addPoint]

/-- Writing the first `k` input points into a buffer of the same length
yields the first `k` input points followed by the buffer's tail. -/
theorem foldl_set_take (ptIn : List vpPoint) (p0 : List vpPoint)
    (hlen : p0.length = ptIn.length) :
    ∀ k, k ≤ ptIn.length →
      (List.range k).foldl (fun p i => p.set i (ptIn.getD i default)) p0 =
        ptIn.take k ++ p0.drop k := by
  intro k
  induction k with
  | zero => simp
  | succ m ih =>
    intro hk
    rw [List.range_succ, List.foldl_append, ih (by omega), List.foldl_cons,
      List.foldl_nil]
    apply List.ext_getElem
    · simp [hlen]
      omega
    · intro idx h1 h2
      rw [List.getElem_set]
      rcases lt_trichotomy idx m with hlt | heq | hgt
      · rw [if_neg (by omega)]
        rw [List.getElem_append_left (by simp [hlen]; omega),
          List.getElem_append_left (by simp [hlen]; omega),
          List.getElem_take, List.getElem_take]
      · subst heq
        rw [if_pos rfl]
        rw [List.getElem_append_left (by simp [hlen]; omega), List.getElem_take]
        rw [List.getD_eq_getElem _ _ (by omega)]
      · rw [if_neg (by omega)]
        rw [List.getElem_append_right (by simp [hlen]; omega),
          List.getElem_append_right (by simp [hlen]; omega)]
        simp only [List.getElem_drop, List.length_take]
        congr 1
        omega

/-- The corner buffer built by `getClippedPolygon`'s `addPoint` loop is the
input list itself. -/
theorem foldl_set_range_eq (ptIn : List vpPoint) :
    (List.range ptIn.length).foldl
        (fun p i => p.set i (ptIn.getD i default))
        (List.replicate ptIn.length default) = ptIn := by
  rw [foldl_set_take ptIn (List.replicate ptIn.length default)
    (by simp) ptIn.length le_rfl]
  simp

/-- C8 amended: `getClippedPolygon` equals the spec's stateless pipeline,
except that the supplied near/far distances are installed only when the
corresponding NEAR/FAR bit is in the clip mask (otherwise the constructor
defaults `0.001`/`100` are used). -/
theorem getClippedPolygon_eq_cond (ptIn : List vpPoint)
    (cMo : vpHomogeneousMatrix) (flags : ℕ) (cam : vpCameraParameters)
    (znear zfar : ℝ) :
    vpMbtPolygon.getClippedPolygon ptIn cMo flags cam znear zfar =
      getClippedPolygonCond ptIn cMo flags cam znear zfar := by
  simp only [vpMbtPolygon.getClippedPolygon, getClippedPolygonCond,
    vpMbtPolygon.setNbPoint, vpMbtPolygon.setClipping,
    vpMbtPolygon.setNearClippingDistance, vpMbtPolygon.setFarClippingDistance]
  rw [foldl_addPoint_p]
  by_cases h1 : (flags &&& vpMbtPolygon.NEAR_CLIPPING) = vpMbtPolygon.NEAR_CLIPPING <;>
    by_cases h2 : (flags &&& vpMbtPolygon.FAR_CLIPPING) = vpMbtPolygon.FAR_CLIPPING <;>
      simp only [h1, h2, if_true, if_false, vpMbtPolygon.init] <;>
        rw [foldl_set_range_eq]

/-- A NEAR-plane edge with both endpoints strictly in front of the distance
is discarded. -/
theorem getClippedPointsDistance_near_dropped (p1 p2 : vpPoint) (i1 i2 : ℕ)
    (d : ℝ) (h1 : p1.Z < d) (h2 : p2.Z < d) :
    vpMbtPolygon.getClippedPointsDistance p1 p2 i1 i2 1 d =
      (false, p1, p2, i1, i2) := by
  rw [vpMbtPolygon.getClippedPointsDistance]
  simp only [eq_false (show ¬ (1 : ℕ) = vpMbtPolygon.FAR_CLIPPING by
    norm_num [vpMbtPolygon.FAR_CLIPPING]), if_false]
  rw [if_pos ⟨h1, h2⟩]

/-- C8 counterexample: with mask `LEFT = 4`, supplied near distance `1/2`
and input points at depths `1/10` and `1/5` under the identity pose, the
claim-side pipeline (polygon built with the supplied near/far distances)
lets the forced NEAR pass clip the whole segment away, while the source's
`getClippedPolygon` installs the supplied near distance only when the NEAR
bit is in the mask, so its forced NEAR pass runs at the default `0.001` and
keeps both points: the two results differ. -/
theorem getClippedPolygon_near_counterexample :
    vpMbtPolygon.getClippedPolygon [c8p1, c8p2] idPose 4 c7cam (1 / 2) 100 ≠
      getClippedPolygonSpec [c8p1, c8p2] idPose 4 c7cam (1 / 2) 100 := by
  have hp1 : c8q1.projection = c8q1 := by
    apply vpPoint.projection_eq_self <;> norm_num [c8q1]
  have hp2 : c8q2.projection = c8q2 := by
    apply vpPoint.projection_eq_self <;> norm_num [c8q2]
  have hlist : ([c8p1, c8p2] : List vpPoint).map
      (fun q => (q.changeFrame idPose).projection) = [c8q1, c8q2] := by
    norm_num [vpPoint.changeFrame, vpPoint.projection, idPose, c8p1, c8p2,
      c8q1, c8q2]
  have ha1 : ¬ fovAngle c8q1 ⟨-1, 0, -1⟩ < Real.pi / 2 :=
    not_lt.mpr (le_of_lt (fovAngle_gt_of_dot_neg c8q1 ⟨-1, 0, -1⟩
      (by norm_num [dotProd, c8q1]) (by norm_num [c8q1])))
  have ha2 : ¬ fovAngle c8q2 ⟨-1, 0, -1⟩ < Real.pi / 2 :=
    not_lt.mpr (le_of_lt (fovAngle_gt_of_dot_neg c8q2 ⟨-1, 0, -1⟩
      (by norm_num [dotProd, c8q2]) (by norm_num [c8q2])))
  have hkeptN : vpMbtPolygon.getClippedPointsDistance c8q1 c8q2 0 0 1
      (0.001 : ℝ) = (true, c8q1, c8q2, 0, 0) :=
    getClippedPointsDistance_near_kept c8q1 c8q2 0 0 (0.001 : ℝ)
      (by norm_num [c8q1]) (by norm_num [c8q2])
  have hkeptL : vpMbtPolygon.getClippedPointsFovGeneric 4 c8q1 c8q2 0 0
      ⟨-1, 0, -1⟩ 4 = (true, c8q1, c8q2, 0, 0) :=
    getClippedPointsFovGeneric_kept 4 c8q1 c8q2 0 0 ⟨-1, 0, -1⟩ 4 ha1 ha2
  have hstepN : vpMbtPolygon.clipStep 4 2 c7cam.fovNormals (0.001 : ℝ)
      (100 : ℝ) 1 [(c8q1, 0), (c8q2, 0)] 0 =
      (true, [(c8q1, 0), (c8q2, 0)]) := by
    simp only [vpMbtPolygon.clipStep]
    rw [show ([(c8q1, 0), (c8q2, 0)] : List (vpPoint × ℕ)).getD 0 default =
      (c8q1, 0) from rfl]
    rw [show ([(c8q1, 0), (c8q2, 0)] : List (vpPoint × ℕ)).getD
      ((0 + 1) % ([(c8q1, 0), (c8q2, 0)] : List (vpPoint × ℕ)).length) default =
      (c8q2, 0) from rfl]
    rw [show vpMbtPolygon.planeClipEdge 4 c7cam.fovNormals (0.001 : ℝ) (100 : ℝ)
      1 c8q1 c8q2 0 0 =
      vpMbtPolygon.getClippedPointsDistance c8q1 c8q2 0 0 1 (0.001 : ℝ) from rfl]
    rw [hkeptN, hp1, hp2]
    norm_num
  have hstepL : vpMbtPolygon.clipStep 4 2 c7cam.fovNormals (0.001 : ℝ)
      (100 : ℝ) 4 [(c8q1, 0), (c8q2, 0)] 0 =
      (true, [(c8q1, 0), (c8q2, 0)]) := by
    simp only [vpMbtPolygon.clipStep]
    rw [show ([(c8q1, 0), (c8q2, 0)] : List (vpPoint × ℕ)).getD 0 default =
      (c8q1, 0) from rfl]
    rw [show ([(c8q1, 0), (c8q2, 0)] : List (vpPoint × ℕ)).getD
      ((0 + 1) % ([(c8q1, 0), (c8q2, 0)] : List (vpPoint × ℕ)).length) default =
      (c8q2, 0) from rfl]
    rw [show vpMbtPolygon.planeClipEdge 4 c7cam.fovNormals (0.001 : ℝ) (100 : ℝ)
      4 c8q1 c8q2 0 0 = vpMbtPolygon.getClippedPointsFovGeneric 4 c8q1 c8q2 0 0
      (⟨-1, 0, -1⟩ : vpColVector3) 4 from rfl]
    rw [hkeptL, hp1, hp2]
    norm_num
  have hplaneN : vpMbtPolygon.clipPlane 4 2 c7cam.fovNormals (0.001 : ℝ)
      (100 : ℝ) 1 [(c8q1, 0), (c8q2, 0)] = [(c8q1, 0), (c8q2, 0)] := by
    rw [vpMbtPolygon.clipPlane]
    rw [show ([(c8q1, 0), (c8q2, 0)] : List (vpPoint × ℕ)).length = 2 from rfl]
    rw [show (2 : ℕ) = 1 + 1 from rfl, vpMbtPolygon.clipPlaneGo]
    rw [hstepN]
    norm_num
  have hplaneL : vpMbtPolygon.clipPlane 4 2 c7cam.fovNormals (0.001 : ℝ)
      (100 : ℝ) 4 [(c8q1, 0), (c8q2, 0)] = [(c8q1, 0), (c8q2, 0)] := by
    rw [vpMbtPolygon.clipPlane]
    rw [show ([(c8q1, 0), (c8q2, 0)] : List (vpPoint × ℕ)).length = 2 from rfl]
    rw [show (2 : ℕ) = 1 + 1 from rfl, vpMbtPolygon.clipPlaneGo]
    rw [hstepL]
    norm_num
  have hdrop0 : vpMbtPolygon.getClippedPointsDistance c8q1 c8q2 0 0 1
      ((1 : ℝ) / 2) = (false, c8q1, c8q2, 0, 0) :=
    getClippedPointsDistance_near_dropped c8q1 c8q2 0 0 _
      (by norm_num [c8q1]) (by norm_num [c8q2])
  have hdrop1 : vpMbtPolygon.getClippedPointsDistance c8q2 c8q1 0 0 1
      ((1 : ℝ) / 2) = (false, c8q2, c8q1, 0, 0) :=
    getClippedPointsDistance_near_dropped c8q2 c8q1 0 0 _
      (by norm_num [c8q2]) (by norm_num [c8q1])
  have hstepS0 : vpMbtPolygon.clipStep 4 2 c7cam.fovNormals ((1 : ℝ) / 2)
      (100 : ℝ) 1 [(c8q1, 0), (c8q2, 0)] 0 = (false, []) := by
    simp only [vpMbtPolygon.clipStep]
    rw [show ([(c8q1, 0), (c8q2, 0)] : List (vpPoint × ℕ)).getD 0 default =
      (c8q1, 0) from rfl]
    rw [show ([(c8q1, 0), (c8q2, 0)] : List (vpPoint × ℕ)).getD
      ((0 + 1) % ([(c8q1, 0), (c8q2, 0)] : List (vpPoint × ℕ)).length) default =
      (c8q2, 0) from rfl]
    rw [show vpMbtPolygon.planeClipEdge 4 c7cam.fovNormals ((1 : ℝ) / 2)
      (100 : ℝ) 1 c8q1 c8q2 0 0 =
      vpMbtPolygon.getClippedPointsDistance c8q1 c8q2 0 0 1 ((1 : ℝ) / 2) from rfl]
    rw [hdrop0]
    norm_num
  have hstepS1 : vpMbtPolygon.clipStep 4 2 c7cam.fovNormals ((1 : ℝ) / 2)
      (100 : ℝ) 1 [(c8q1, 0), (c8q2, 0)] 1 = (false, []) := by
    simp only [vpMbtPolygon.clipStep]
    rw [show ([(c8q1, 0), (c8q2, 0)] : List (vpPoint × ℕ)).getD 1 default =
      (c8q2, 0) from rfl]
    rw [show ([(c8q1, 0), (c8q2, 0)] : List (vpPoint × ℕ)).getD
      ((1 + 1) % ([(c8q1, 0), (c8q2, 0)] : List (vpPoint × ℕ)).length) default =
      (c8q1, 0) from rfl]
    rw [show vpMbtPolygon.planeClipEdge 4 c7cam.fovNormals ((1 : ℝ) / 2)
      (100 : ℝ) 1 c8q2 c8q1 0 0 =
      vpMbtPolygon.getClippedPointsDistance c8q2 c8q1 0 0 1 ((1 : ℝ) / 2) from rfl]
    rw [hdrop1]
    norm_num
  have hplaneS : vpMbtPolygon.clipPlane 4 2 c7cam.fovNormals ((1 : ℝ) / 2)
      (100 : ℝ) 1 [(c8q1, 0), (c8q2, 0)] = [] := by
    rw [vpMbtPolygon.clipPlane]
    rw [show ([(c8q1, 0), (c8q2, 0)] : List (vpPoint × ℕ)).length = 2 from rfl]
    rw [show (2 : ℕ) = 1 + 1 from rfl, vpMbtPolygon.clipPlaneGo]
    rw [hstepS0]
    rw [if_neg (by norm_num)]
    rw [vpMbtPolygon.clipPlaneGo]
    rw [hstepS1]
    rw [if_neg (by norm_num)]
    rw [vpMbtPolygon.clipPlaneGo]
    simp
  have hcfC : c8polyCode.changeFrame idPose = c8polyCodeT := by
    simp only [vpMbtPolygon.changeFrame]
    rw [show c8polyCode.p = [c8p1, c8p2] from rfl, hlist]
    rfl
  have hcfS : c8polySpec.changeFrame idPose = c8polySpecT := by
    simp only [vpMbtPolygon.changeFrame]
    rw [show c8polySpec.p = [c8p1, c8p2] from rfl, hlist]
    rfl
  have hcode : vpMbtPolygon.getClippedPolygon [c8p1, c8p2] idPose 4 c7cam
      (1 / 2) 100 = [c8q1, c8q2] := by
    rw [show vpMbtPolygon.getClippedPolygon [c8p1, c8p2] idPose 4 c7cam
      (1 / 2) 100 =
      ((c8polyCode.changeFrame idPose).computeRoiClipped c7cam).getRoiClipped
      from rfl]
    rw [hcfC]
    rw [vpMbtPolygon.computeRoiClipped]
    rw [show vpMbtPolygon.fovNormalsOf c7cam c8polyCodeT.clippingFlag =
      c7cam.fovNormals from rfl]
    rw [show vpMbtPolygon.initialRoiList c8polyCodeT = [(c8q1, 0), (c8q2, 0)]
      from rfl]
    rw [if_pos (show c8polyCodeT.clippingFlag ≠ vpMbtPolygon.NO_CLIPPING by
      norm_num [c8polyCodeT, vpMbtPolygon.init, vpMbtPolygon.NO_CLIPPING])]
    rw [show c8polyCodeT.clippingFlag = 4 from rfl]
    rw [show c8polyCodeT.nbpt = 2 from rfl]
    rw [show c8polyCodeT.distNearClip = (0.001 : ℝ) from rfl]
    rw [show c8polyCodeT.distFarClip = (100 : ℝ) from rfl]
    rw [List.foldl_cons, if_pos (show ((4 : ℕ) &&& 1) = 1 ∨
      ((4 : ℕ) > vpMbtPolygon.FAR_CLIPPING ∧ (1 : ℕ) = 1)
      from Or.inr ⟨by decide, rfl⟩)]
    rw [hplaneN]
    rw [List.foldl_cons, if_neg (show ¬ (((4 : ℕ) &&& 2) = 2 ∨
      ((4 : ℕ) > vpMbtPolygon.FAR_CLIPPING ∧ (2 : ℕ) = 1)) by decide)]
    rw [List.foldl_cons, if_pos (show ((4 : ℕ) &&& 4) = 4 ∨
      ((4 : ℕ) > vpMbtPolygon.FAR_CLIPPING ∧ (4 : ℕ) = 1)
      from Or.inl (by decide))]
    rw [hplaneL]
    rw [List.foldl_cons, if_neg (show ¬ (((4 : ℕ) &&& 8) = 8 ∨
      ((4 : ℕ) > vpMbtPolygon.FAR_CLIPPING ∧ (8 : ℕ) = 1)) by decide)]
    rw [List.foldl_cons, if_neg (show ¬ (((4 : ℕ) &&& 16) = 16 ∨
      ((4 : ℕ) > vpMbtPolygon.FAR_CLIPPING ∧ (16 : ℕ) = 1)) by decide)]
    rw [List.foldl_cons, if_neg (show ¬ (((4 : ℕ) &&& 32) = 32 ∨
      ((4 : ℕ) > vpMbtPolygon.FAR_CLIPPING ∧ (32 : ℕ) = 1)) by decide)]
    rw [List.foldl_nil]
    rfl
  have hspec : getClippedPolygonSpec [c8p1, c8p2] idPose 4 c7cam (1 / 2) 100 =
      [] := by
    rw [show getClippedPolygonSpec [c8p1, c8p2] idPose 4 c7cam (1 / 2) 100 =
      ((c8polySpec.changeFrame idPose).computeRoiClipped c7cam).getRoiClipped
      from rfl]
    rw [hcfS]
    rw [vpMbtPolygon.computeRoiClipped]
    rw [show vpMbtPolygon.fovNormalsOf c7cam c8polySpecT.clippingFlag =
      c7cam.fovNormals from rfl]
    rw [show vpMbtPolygon.initialRoiList c8polySpecT = [(c8q1, 0), (c8q2, 0)]
      from rfl]
    rw [if_pos (show c8polySpecT.clippingFlag ≠ vpMbtPolygon.NO_CLIPPING by
      norm_num [c8polySpecT, vpMbtPolygon.init, vpMbtPolygon.NO_CLIPPING])]
    rw [show c8polySpecT.clippingFlag = 4 from rfl]
    rw [show c8polySpecT.nbpt = 2 from rfl]
    rw [show c8polySpecT.distNearClip = ((1 : ℝ) / 2) from rfl]
    rw [show c8polySpecT.distFarClip = (100 : ℝ) from rfl]
    rw [List.foldl_cons, if_pos (show ((4 : ℕ) &&& 1) = 1 ∨
      ((4 : ℕ) > vpMbtPolygon.FAR_CLIPPING ∧ (1 : ℕ) = 1)
      from Or.inr ⟨by decide, rfl⟩)]
    rw [hplaneS]
    rw [List.foldl_cons, if_neg (show ¬ (((4 : ℕ) &&& 2) = 2 ∨
      ((4 : ℕ) > vpMbtPolygon.FAR_CLIPPING ∧ (2 : ℕ) = 1)) by decide)]
    rw [List.foldl_cons, if_pos (show ((4 : ℕ) &&& 4) = 4 ∨
      ((4 : ℕ) > vpMbtPolygon.FAR_CLIPPING ∧ (4 : ℕ) = 1)
      from Or.inl (by decide))]
    rw [show vpMbtPolygon.clipPlane 4 2 c7cam.fovNormals ((1 : ℝ) / 2)
      (100 : ℝ) 4 ([] : List (vpPoint × ℕ)) = [] from rfl]
    rw [List.foldl_cons, if_neg (show ¬ (((4 : ℕ) &&& 8) = 8 ∨
      ((4 : ℕ) > vpMbtPolygon.FAR_CLIPPING ∧ (8 : ℕ) = 1)) by decide)]
    rw [List.foldl_cons, if_neg (show ¬ (((4 : ℕ) &&& 16) = 16 ∨
      ((4 : ℕ) > vpMbtPolygon.FAR_CLIPPING ∧ (16 : ℕ) = 1)) by decide)]
    rw [List.foldl_cons, if_neg (show ¬ (((4 : ℕ) &&& 32) = 32 ∨
      ((4 : ℕ) > vpMbtPolygon.FAR_CLIPPING ∧ (32 : ℕ) = 1)) by decide)]
    rw [List.foldl_nil]
    rfl
  rw [hcode, hspec]
  simp

/-! ## C10 — degenerate polygons are always visible, without side effects -/

/-- C10: for `nbpt ≤ 2`, `isVisible` returns `true`, sets `visible = true`
and `appearing = false`, and performs neither the frame transform nor the
reprojection: every corner (camera-frame coordinates and stored projection
included) is exactly as before the call. -/
theorem isVisible_line_no_transform (poly : vpMbtPolygon)
    (cMo : vpHomogeneousMatrix) (alpha : ℝ) (modulo : Bool)
    (h : poly.nbpt ≤ 2) :
    poly.isVisible cMo alpha modulo =
      (true, { poly with isvisible := true, isappearing := false }) ∧
    (poly.isVisible cMo alpha modulo).2.p = poly.p := by
  constructor
  · simp [vpMbtPolygon.isVisible, h]
  · simp [vpMbtPolygon.isVisible, h]

/-- C10 witness: a 2-corner polygon under an arbitrary non-identity pose. -/
theorem isVisible_line_no_transform_witness :
    c6poly.nbpt ≤ 2 ∧
    (c6poly.isVisible ⟨0, 1, 0, 1, 0, 0, 0, 0, 1, 5, 6, 7⟩ (1 / 10) true =
        (true, { c6poly with isvisible := true, isappearing := false }) ∧
      (c6poly.isVisible ⟨0, 1, 0, 1, 0, 0, 0, 0, 1, 5, 6, 7⟩ (1 / 10) true).2.p =
        c6poly.p) :=
  ⟨by norm_num [c6poly],
    isVisible_line_no_transform c6poly ⟨0, 1, 0, 1, 0, 0, 0, 0, 1, 5, 6, 7⟩
      (1 / 10) true (by norm_num [c6poly])⟩

end Visp
